import Mathlib

/-!
Shallow embedding of the sale-registration core of the CRUD-Atletica
repository (src/venda.py, src/produtos.py, src/clientes.py,
src/vendedores.py).

The relational store is modelled as an explicit record of tables
(lists of rows).  Python `Decimal` values are modelled as exact
rationals (ℚ); the default Decimal context (28 significant digits)
never rounds at the magnitudes handled here.  Python `float(...)`
conversions, which venda.py applies to every monetary value at INSERT
time, are modelled by `pyFloat`, the round-to-nearest-even IEEE 754
binary64 rounding function on ℚ (finite, normal range — the range of
all monetary amounts in this program).
-/

namespace CrudAtletica

/-! ## Data model (rows of the tables used by venda.py) -/

/-- Sale status values written by venda.py (`STATUS_VENDA` keys). -/
inductive StatusVenda where
  | PENDENTE
  | AUTORIZADA
  | CANCELADA
deriving DecidableEq, Repr

/-- A row of `clientes`, with the columns selected by
`buscar_cliente_por_matricula` (clientes.py line 79). -/
structure Cliente where
  matricula : String
  nome : String
  email : String
  telefone : String
  eh_socio : Bool
  time : String
  cidade : String
  assiste_op : Bool
deriving DecidableEq, Repr

/-- A row of `produtos`, with the columns selected by
`buscar_produto_por_id` (produtos.py line 65).  The stock column
`quantidade` is a plain SQL integer: the schema puts no lower bound on
it, so it is modelled as ℤ. -/
structure Produto where
  id : Nat
  nome : String
  quantidade : Int
  preco : Rat
  cidade : String
  categoria : String
deriving DecidableEq, Repr

/-- A row of `vendedores` (`SELECT *`, column order per
`buscar_vendedor_por_nome`): matricula, nome, email, telefone, ativo;
venda.py reads `vendedor[4]` as the active flag. -/
structure Vendedor where
  matricula : String
  nome : String
  email : String
  telefone : String
  ativo : Bool
deriving DecidableEq, Repr

/-- A row of `vendas` as written by `registrar_venda` (venda.py lines
307-329).  `valor_total` and `valor_desconto` hold the values of the
`float(...)` conversions applied at INSERT time. -/
structure Venda where
  id : Nat
  cliente_matricula : String
  valor_total : Rat
  forma_pagamento : String
  data_venda : Nat
  status : StatusVenda
  desconto_aplicado : Bool
  motivo_desconto : Option String
  valor_desconto : Option Rat
deriving DecidableEq, Repr

/-- A row of `itens_venda` as written by venda.py lines 341-344. -/
structure ItemVenda where
  id_venda : Nat
  id_produto : Nat
  quantidade : Nat
  valor_unitario : Rat
deriving DecidableEq, Repr

/-- A row of `vendedor_vendas` (venda.py lines 334-337, stamped at
lines 670-674).  Timestamps are abstract clock values (ℕ). -/
structure VendedorVenda where
  vendedor_matricula : String
  id_venda : Nat
  data_autorizacao : Option Nat
deriving DecidableEq, Repr

/-- The database state: the tables venda.py touches, the serial
counter backing `RETURNING id`, and the clock backing
`CURRENT_TIMESTAMP`. -/
structure DB where
  produtos : List Produto
  clientes : List Cliente
  vendedores : List Vendedor
  vendas : List Venda
  itens_venda : List ItemVenda
  vendedor_vendas : List VendedorVenda
  next_venda_id : Nat
  now : Nat
deriving DecidableEq, Repr

/-! ## Python `float` conversion on exact decimals

venda.py stores every monetary value through `float(...)` (lines 318,
320, 329, 344).  CPython's `float(Decimal(...))` is correctly-rounded
conversion to IEEE 754 binary64 (round to nearest, ties to even).
`pyFloat` is that conversion expressed on ℚ, for inputs in the finite
normal range (all monetary amounts here). -/

/-- `⌊log₂ a⌋` for a positive rational `a`. -/
def ratLog2 (a : Rat) : Int :=
  if 1 ≤ a then
    (Nat.log2 (a.num.natAbs / a.den) : Int)
  else
    let j := Nat.log2 (a.den / a.num.natAbs)
    if (2 ^ j : Rat) * a = 1 then -(j : Int) else -(j : Int) - 1

/-- Nearest integer to a rational, ties to even. -/
def roundHalfEven (a : Rat) : Int :=
  let f : Int := ⌊a⌋
  let r : Rat := a - (f : Rat)
  if r < 1/2 then f
  else if 1/2 < r then f + 1
  else if f % 2 = 0 then f else f + 1

/-- Round-to-nearest-even binary64 value of a rational (CPython
`float(Decimal(x))` for `x` in the finite normal range): the mantissa
is rounded to 53 significant bits. -/
def pyFloat (q : Rat) : Rat :=
  if q = 0 then 0
  else
    let s : Rat := if 0 < q then 1 else -1
    let a : Rat := |q|
    let e : Int := ratLog2 a
    let scale : Rat := 2 ^ (52 - e)
    s * (roundHalfEven (a * scale) : Rat) / scale

/-! ## Python `int(...)` parsing (for `validar_quantidade`)

`validar_quantidade` (produtos.py lines 17-25) calls `int(quantidade)`
on the raw prompt string.  CPython accepts surrounding whitespace, one
optional sign, and ASCII digits optionally separated by single
underscores; anything else raises `ValueError`. -/

/-- Whitespace characters stripped by CPython `int(str)`. -/
def pyIsSpace (c : Char) : Bool :=
  c = ' ' || c = '\t' || c = '\n' || c = '\r' ||
  c = Char.ofNat 11 || c = Char.ofNat 12

/-- Digit run with optional single underscores between digits,
accumulating the value; mirrors the tail of a CPython int literal. -/
def pyDigitsCore : Nat → List Char → Option Nat
  | acc, [] => some acc
  | acc, c :: rest =>
    if c.isDigit then pyDigitsCore (10 * acc + (c.toNat - 48)) rest
    else if c = '_' then
      match rest with
      | [] => none
      | d :: rest2 =>
        if d.isDigit then pyDigitsCore (10 * acc + (d.toNat - 48)) rest2 else none
    else none

/-- Nonempty digit run (underscores allowed between digits). -/
def pyDigits : List Char → Option Nat
  | [] => none
  | c :: rest => if c.isDigit then pyDigitsCore (c.toNat - 48) rest else none

/-- CPython `int(s)`: strip whitespace, optional sign, digit run. -/
def pyIntParse (s : String) : Option Int :=
  let cs := (s.data.dropWhile pyIsSpace).reverse.dropWhile pyIsSpace |>.reverse
  match cs with
  | '+' :: rest => (pyDigits rest).map (fun n => (n : Int))
  | '-' :: rest => (pyDigits rest).map (fun n => -(n : Int))
  | rest => (pyDigits rest).map (fun n => (n : Int))

/-! ## Validators -/

/-- produtos.py `validar_quantidade`: `int(quantidade) >= 0`, False on
`ValueError`.  (Its docstring claims "inteiro positivo".) -/
def validar_quantidade (quantidade : String) : Bool :=
  match pyIntParse quantidade with
  | some n => decide (0 ≤ n)
  | none => false

/-- venda.py `FORMAS_PAGAMENTO`. -/
def FORMAS_PAGAMENTO : List String :=
  ["Pix", "Dinheiro", "Boleto", "Cartão", "Berries"]

/-! ## Lookup queries (fetchone = first matching row) -/

/-- clientes.py `buscar_cliente_por_matricula`:
`SELECT ... FROM clientes WHERE matricula = %s`, `fetchone`. -/
def buscar_cliente_por_matricula (db : DB) (matricula : String) : Option Cliente :=
  db.clientes.find? (fun c => c.matricula = matricula)

/-- produtos.py `buscar_produto_por_id`:
`SELECT ... FROM produtos WHERE id = %s`, `fetchone`. -/
def buscar_produto_por_id (db : DB) (id_produto : Nat) : Option Produto :=
  db.produtos.find? (fun p => p.id = id_produto)

/-- vendedores.py `buscar_vendedor_por_matricula`:
`SELECT * FROM vendedores WHERE matricula = %s`, `fetchone`. -/
def buscar_vendedor_por_matricula (db : DB) (matricula : String) : Option Vendedor :=
  db.vendedores.find? (fun v => v.matricula = matricula)

/-- The sale-row lookup issued by `autorizar_venda` (venda.py lines
640-644): `SELECT id, status FROM vendas WHERE id = %s`, `fetchone`. -/
def buscar_venda (db : DB) (venda_id : Nat) : Option Venda :=
  db.vendas.find? (fun v => v.id = venda_id)

/-- venda.py `verificar_estoque_suficiente` (lines 56-79):
`SELECT quantidade FROM produtos WHERE id = %s`; returns
`resultado and resultado[0] >= quantidade`. -/
def verificar_estoque_suficiente (db : DB) (id_produto : Nat) (quantidade : Nat) : Bool :=
  match buscar_produto_por_id db id_produto with
  | some p => decide ((quantidade : Int) ≤ p.quantidade)
  | none => false

/-! ## Discount resolver -/

/-- The dictionary `verificar_desconto` (venda.py lines 81-105) builds
from the row returned by the SQL function. -/
structure DescontoInfo where
  tem_desconto : Bool
  motivo : String
  time : String
  cidade : String
  assiste_one_piece : Bool
deriving DecidableEq, Repr

/-- Modelled from the spec: the SQL function `verificar_desconto(matricula)`
invoked at venda.py line 87 is defined in the repository's database
schema, which is not under src/.  Per the spec, eligibility is "a
predicate evaluated against customer attributes (partner status, or a
combination of favorite team / home city / media-preference flag,
exact rule delegated to the persistence layer's business predicate)",
and "if the customer does not exist, the resolver reports 'not
eligible'".  The delegated predicate is the parameter `regra`; a
missing customer yields a not-eligible row. -/
def verificar_desconto_sql (regra : Cliente → Bool × String) (db : DB)
    (matricula : String) : Option DescontoInfo :=
  match buscar_cliente_por_matricula db matricula with
  | none => some { tem_desconto := false, motivo := "", time := "", cidade := "",
                   assiste_one_piece := false }
  | some c => some { tem_desconto := (regra c).1, motivo := (regra c).2, time := c.time,
                     cidade := c.cidade, assiste_one_piece := c.assiste_op }

/-- venda.py `verificar_desconto` (lines 81-105): runs the SQL
function; a lookup error (`except Error`) or an empty result yields
`None`.  `erro_consulta` is the failure oracle for the lookup. -/
def verificar_desconto (regra : Cliente → Bool × String) (db : DB)
    (erro_consulta : Bool) (matricula : String) : Option DescontoInfo :=
  if erro_consulta then none
  else verificar_desconto_sql regra db matricula

/-! ## Cart accumulator (the item loop of `registrar_venda`, lines 227-283) -/

/-- A cart entry as built at venda.py lines 274-278: id, quantity, and
the unit price snapshotted from the product at add time. -/
structure ItemCarrinho where
  id_produto : Nat
  quantidade : Nat
  preco_unitario : Rat
deriving DecidableEq, Repr

/-- The rejection causes of one iteration of the add-item loop. -/
inductive AddError where
  | produtoNaoEncontrado
  | quantidadeInvalida
  | estoqueInsuficiente
deriving DecidableEq, Repr

/-- One add request of the item loop (venda.py lines 234-278): resolve
the product, validate the quantity string, check stock, then append
the item with the snapshotted unit price. -/
def add_item (db : DB) (itens : List ItemCarrinho) (id_produto : Nat)
    (quantidade_str : String) : Except AddError (List ItemCarrinho) :=
  match buscar_produto_por_id db id_produto with
  | none => .error .produtoNaoEncontrado
  | some produto =>
    if ¬ validar_quantidade quantidade_str then .error .quantidadeInvalida
    else
      let quantidade := ((pyIntParse quantidade_str).getD 0).toNat
      if ¬ verificar_estoque_suficiente db id_produto quantidade then
        .error .estoqueInsuficiente
      else
        .ok (itens ++ [{ id_produto := id_produto, quantidade := quantidade,
                         preco_unitario := produto.preco }])

deriving instance DecidableEq for Except

/-- A rejected add leaves the cart as it was (the loop re-prompts);
an accepted add replaces it. -/
def processar_pedido (db : DB) (itens : List ItemCarrinho)
    (pedido : Nat × String) : List ItemCarrinho :=
  match add_item db itens pedido.1 pedido.2 with
  | .ok novos => novos
  | .error _ => itens

/-- venda.py line 286: running total
`sum(Decimal(item['quantidade']) * item['preco_unitario'] for item in itens)`. -/
def subtotal (itens : List ItemCarrinho) : Rat :=
  itens.foldl (fun acc it => acc + (it.quantidade : Rat) * it.preco_unitario) 0

/-- venda.py lines 288-291: if eligible, `desconto = valor_total *
Decimal('0.10'); valor_total -= desconto`.  Returns the new total and,
when the discount branch ran, the pair (motivo, desconto) used by the
discount INSERT. -/
def aplicar_desconto (valor_total : Rat) (desconto_info : Option DescontoInfo) :
    Rat × Option (String × Rat) :=
  match desconto_info with
  | some i =>
    if i.tem_desconto then
      let desconto := valor_total * (1/10)
      (valor_total - desconto, some (i.motivo, desconto))
    else (valor_total, none)
  | none => (valor_total, none)

/-! ## Sale committer (venda.py lines 304-363)

The store is transactional (spec §5: `begin_transaction / commit /
rollback` with an all-or-nothing guarantee): statements executed
inside the `try` block act on uncommitted state; `conn.commit()`
publishes it and `conn.rollback()` (the `except Error` handler)
discards it.  A failure oracle indexed by statement position says
which `cursor.execute` raises `psycopg2.Error`. -/

/-- The `vendas` row built by the INSERT of venda.py lines 307-329.
Both SQL branches write `status = 'PENDENTE'`; monetary values go
through `float(...)` (`pyFloat`); `RETURNING id` draws from the serial
counter. -/
def novaVenda (d : DB) (matricula : String) (valor_total : Rat) (forma_pagamento : String)
    (desconto : Option (String × Rat)) : Venda :=
  { id := d.next_venda_id
    cliente_matricula := matricula
    valor_total := pyFloat valor_total
    forma_pagamento := forma_pagamento
    data_venda := d.now
    status := .PENDENTE
    desconto_aplicado := desconto.isSome
    motivo_desconto := desconto.map (fun p => p.1)
    valor_desconto := desconto.map (fun p => pyFloat p.2) }

/-- The `vendedor_vendas` row of venda.py lines 334-337. -/
def novaAtribuicao (matricula_vendedor : String) (venda_id : Nat) : VendedorVenda :=
  { vendedor_matricula := matricula_vendedor, id_venda := venda_id, data_autorizacao := none }

/-- The `itens_venda` row of venda.py lines 341-344; the unit price
goes through `float(...)`. -/
def novoItemVenda (venda_id : Nat) (it : ItemCarrinho) : ItemVenda :=
  { id_venda := venda_id, id_produto := it.id_produto, quantidade := it.quantidade,
    valor_unitario := pyFloat it.preco_unitario }

/-- Row effect of the stock UPDATE of venda.py lines 346-350:
`UPDATE produtos SET quantidade = quantidade - %s WHERE id = %s` —
unconditional; no lower bound is checked. -/
def decEstoque (it : ItemCarrinho) (p : Produto) : Produto :=
  if p.id = it.id_produto then { p with quantidade := p.quantidade - (it.quantidade : Int) }
  else p

/-- The INSERT into `vendas` (venda.py lines 307-329). -/
def insertVendaStep (matricula : String) (valor_total : Rat) (forma_pagamento : String)
    (desconto : Option (String × Rat)) (d : DB) : DB :=
  { d with vendas := d.vendas ++ [novaVenda d matricula valor_total forma_pagamento desconto],
           next_venda_id := d.next_venda_id + 1 }

/-- The INSERT into `vendedor_vendas` (venda.py lines 334-337). -/
def insertAtribuicaoStep (matricula_vendedor : String) (venda_id : Nat) (d : DB) : DB :=
  { d with vendedor_vendas := d.vendedor_vendas ++ [novaAtribuicao matricula_vendedor venda_id] }

/-- The INSERT into `itens_venda` for one cart entry (venda.py lines
341-344). -/
def insertItemStep (venda_id : Nat) (it : ItemCarrinho) (d : DB) : DB :=
  { d with itens_venda := d.itens_venda ++ [novoItemVenda venda_id it] }

/-- The stock UPDATE for one cart entry (venda.py lines 346-350). -/
def updateEstoqueStep (it : ItemCarrinho) (d : DB) : DB :=
  { d with produtos := d.produtos.map (decEstoque it) }

/-- Apply a list of statements to the uncommitted state. -/
def applySteps : List (DB → DB) → DB → DB
  | [], d => d
  | f :: fs, d => applySteps fs (f d)

/-- Run statements against the uncommitted state; `fails k = true`
means the k-th `cursor.execute` raises `psycopg2.Error`. -/
def runSteps (fails : Nat → Bool) : Nat → List (DB → DB) → DB → Option DB
  | _, [], d => some d
  | k, f :: fs, d => if fails k then none else runSteps fails (k + 1) fs (f d)

/-- The statement sequence of the commit block, in source order:
sale header, seller attribution, then per item the line-item INSERT
followed by the stock UPDATE. -/
def commitStepList (matricula : String) (valor_total : Rat) (forma_pagamento : String)
    (desconto : Option (String × Rat)) (matricula_vendedor : String) (venda_id : Nat)
    (itens : List ItemCarrinho) : List (DB → DB) :=
  insertVendaStep matricula valor_total forma_pagamento desconto ::
  insertAtribuicaoStep matricula_vendedor venda_id ::
  itens.flatMap (fun it => [insertItemStep venda_id it, updateEstoqueStep it])

/-- The `try ... conn.commit() ... except Error: conn.rollback()`
block of `registrar_venda` (venda.py lines 304-363): on success the
uncommitted state is published and the new sale id returned; on any
statement failure the work is rolled back (the committed state `db` is
returned) and `None` reported. -/
def registrar_venda_commit (db : DB) (matricula : String) (valor_total : Rat)
    (forma_pagamento : String) (desconto : Option (String × Rat))
    (matricula_vendedor : String) (itens : List ItemCarrinho)
    (fails : Nat → Bool) : DB × Option Nat :=
  match runSteps fails 0
      (commitStepList matricula valor_total forma_pagamento desconto
        matricula_vendedor db.next_venda_id itens) db with
  | some d => (d, some db.next_venda_id)
  | none => (db, none)

/-- venda.py `registrar_venda` (lines 156-363), as the function of one
completed interactive session.  Aborted sessions (unknown customer,
invalid payment option, unknown or inactive seller, empty cart,
declined confirmation) return the state unchanged with `None`, as the
source does.  `pedidos` are the add requests of the item loop;
rejected requests are re-prompted, i.e. leave the cart unchanged. -/
def registrar_venda (regra : Cliente → Bool × String) (db : DB)
    (erro_desconto : Bool) (matricula : String) (opcao_pagamento : Nat)
    (matricula_vendedor : String) (pedidos : List (Nat × String))
    (confirmacao : Bool) (fails : Nat → Bool) : DB × Option Nat :=
  match buscar_cliente_por_matricula db matricula with
  | none => (db, none)
  | some _ =>
    let desconto_info := verificar_desconto regra db erro_desconto matricula
    if ¬ (1 ≤ opcao_pagamento ∧ opcao_pagamento ≤ FORMAS_PAGAMENTO.length) then (db, none)
    else
      let forma_pagamento := FORMAS_PAGAMENTO.getD (opcao_pagamento - 1) ""
      match buscar_vendedor_por_matricula db matricula_vendedor with
      | none => (db, none)
      | some vendedor =>
        if ¬ vendedor.ativo then (db, none)
        else
          let itens := pedidos.foldl (processar_pedido db) []
          if itens.isEmpty then (db, none)
          else
            let valor_total := subtotal itens
            let aplicado := aplicar_desconto valor_total desconto_info
            if ¬ confirmacao then (db, none)
            else
              registrar_venda_commit db matricula aplicado.1 forma_pagamento aplicado.2
                matricula_vendedor itens fails

/-! ## Authorization (venda.py `autorizar_venda`, lines 627-686) -/

/-- Outcomes of `autorizar_venda`. -/
inductive AutorizarResultado where
  | autorizada
  | naoEncontrada
  | transicaoInvalida
  | operacaoCancelada
  | erro
deriving DecidableEq, Repr

/-- `UPDATE vendas SET status = 'AUTORIZADA' WHERE id = %s`
(venda.py lines 663-667). -/
def updateStatusStep (venda_id : Nat) (d : DB) : DB :=
  { d with vendas := d.vendas.map (fun v =>
      if v.id = venda_id then { v with status := .AUTORIZADA } else v) }

/-- `UPDATE vendedor_vendas SET data_autorizacao = CURRENT_TIMESTAMP
WHERE id_venda = %s` (venda.py lines 670-674). -/
def stampAutorizacaoStep (venda_id : Nat) (d : DB) : DB :=
  { d with vendedor_vendas := d.vendedor_vendas.map (fun a =>
      if a.id_venda = venda_id then { a with data_autorizacao := some d.now } else a) }

/-- venda.py `autorizar_venda`: fetch the sale; missing id or a
non-PENDENTE status abort without writing; otherwise (after operator
confirmation) the status UPDATE and the timestamp UPDATE run in one
transaction, rolled back on failure. -/
def autorizar_venda (db : DB) (venda_id : Nat) (confirmacao : Bool)
    (fails : Nat → Bool) : DB × AutorizarResultado :=
  match buscar_venda db venda_id with
  | none => (db, .naoEncontrada)
  | some v =>
    if v.status ≠ .PENDENTE then (db, .transicaoInvalida)
    else if ¬ confirmacao then (db, .operacaoCancelada)
    else
      match runSteps fails 0 [updateStatusStep venda_id, stampAutorizacaoStep venda_id] db with
      | some d => (d, .autorizada)
      | none => (db, .erro)

/-! ## Operation alphabet (the state-changing flows of the sale module) -/

/-- The state-changing operations reachable from the sales menu
(venda.py `menu_vendas`): registering a sale and authorizing one.
Listing and detailing are read-only. -/
inductive Op where
  | registrar (regra : Cliente → Bool × String) (erro_desconto : Bool) (matricula : String)
      (opcao_pagamento : Nat) (matricula_vendedor : String) (pedidos : List (Nat × String))
      (confirmacao : Bool) (fails : Nat → Bool)
  | autorizar (venda_id : Nat) (confirmacao : Bool) (fails : Nat → Bool)

/-- State after one operation. -/
def applyOp (db : DB) : Op → DB
  | .registrar regra e m o mv p c f => (registrar_venda regra db e m o mv p c f).1
  | .autorizar vid c f => (autorizar_venda db vid c f).1

/-- State after a sequence of operations. -/
def applyOps (db : DB) (ops : List Op) : DB :=
  ops.foldl applyOp db

/-- The database state left by a fully successful commit: the new sale
header, the attribution row, one line item per cart entry, and the
(unconditional) stock decrements. -/
def commitState (db : DB) (matricula : String) (valor_total : Rat) (forma_pagamento : String)
    (desconto : Option (String × Rat)) (matricula_vendedor : String)
    (itens : List ItemCarrinho) : DB :=
  { db with
    vendas := db.vendas ++ [novaVenda db matricula valor_total forma_pagamento desconto]
    next_venda_id := db.next_venda_id + 1
    vendedor_vendas := db.vendedor_vendas ++ [novaAtribuicao matricula_vendedor db.next_venda_id]
    itens_venda := db.itens_venda ++ itens.map (novoItemVenda db.next_venda_id)
    produtos := itens.foldl (fun ps it => ps.map (decEstoque it)) db.produtos }

/-! ## Frame relations for the authorization step -/

/-- Row-level frame for `vendas` under authorization of sale `vid`:
every column except `status` is preserved, and `status` moves only to
`AUTORIZADA` and only on the row of `vid`. -/
def VendaFrame (vid : Nat) (v v' : Venda) : Prop :=
  v'.id = v.id ∧ v'.cliente_matricula = v.cliente_matricula ∧
  v'.valor_total = v.valor_total ∧ v'.forma_pagamento = v.forma_pagamento ∧
  v'.data_venda = v.data_venda ∧ v'.desconto_aplicado = v.desconto_aplicado ∧
  v'.motivo_desconto = v.motivo_desconto ∧ v'.valor_desconto = v.valor_desconto ∧
  (v' = v ∨ (v.id = vid ∧ v' = { v with status := StatusVenda.AUTORIZADA }))

/-- Row-level frame for `vendedor_vendas` under authorization of sale
`vid`: only `data_autorizacao` may be stamped, and only on rows of
`vid`. -/
def AtribuicaoFrame (vid : Nat) (agora : Nat) (a a' : VendedorVenda) : Prop :=
  a'.vendedor_matricula = a.vendedor_matricula ∧ a'.id_venda = a.id_venda ∧
  (a' = a ∨ (a.id_venda = vid ∧ a' = { a with data_autorizacao := some agora }))

/-! ## Concrete fixtures (test data for the witnesses) -/

/-- Fixture: an eligibility rule that never grants the discount. -/
def regraNenhuma : Cliente → Bool × String := fun _ => (false, "")

/-- Fixture: an eligibility rule that always grants the discount. -/
def regraSocio : Cliente → Bool × String := fun _ => (true, "Sócio")

/-- Fixture customer. -/
def clienteTeste : Cliente :=
  { matricula := "123456", nome := "Ana", email := "ana@exemplo.com",
    telefone := "83999990000", eh_socio := true, time := "Botafogo-PB",
    cidade := "João Pessoa", assiste_op := true }

/-- Fixture seller (active). -/
def vendedorTeste : Vendedor :=
  { matricula := "654321", nome := "Beto", email := "beto@exemplo.com",
    telefone := "83988880000", ativo := true }

/-- Fixture product: stock 5, price 10.00. -/
def produtoCamisa : Produto :=
  { id := 1, nome := "Camisa", quantidade := 5, preco := 10,
    cidade := "João Pessoa", categoria := "Vestuário" }

/-- Fixture product: stock 10, price 5.00. -/
def produtoCaneca : Produto :=
  { id := 2, nome := "Caneca", quantidade := 10, preco := 5,
    cidade := "Campina Grande", categoria := "Geral" }

/-- Fixture product: stock 10, price 0.30 (a price whose binary64
image differs from its exact decimal value). -/
def produtoBala : Produto :=
  { id := 3, nome := "Bala", quantidade := 10, preco := 3/10,
    cidade := "João Pessoa", categoria := "Geral" }

/-- Fixture database with no sales yet. -/
def dbTeste : DB :=
  { produtos := [produtoCamisa, produtoCaneca, produtoBala],
    clientes := [clienteTeste], vendedores := [vendedorTeste],
    vendas := [], itens_venda := [], vendedor_vendas := [],
    next_venda_id := 1, now := 100 }

/-- Fixture sale in the PENDENTE state (id 1). -/
def vendaPendente : Venda :=
  { id := 1, cliente_matricula := "123456", valor_total := 25, forma_pagamento := "Pix",
    data_venda := 50, status := .PENDENTE, desconto_aplicado := false,
    motivo_desconto := none, valor_desconto := none }

/-- Fixture sale in the AUTORIZADA state (id 2). -/
def vendaAutorizada : Venda :=
  { id := 2, cliente_matricula := "123456", valor_total := 30, forma_pagamento := "Pix",
    data_venda := 60, status := .AUTORIZADA, desconto_aplicado := false,
    motivo_desconto := none, valor_desconto := none }

/-- Fixture database holding one PENDENTE sale (id 1) and one
AUTORIZADA sale (id 2). -/
def dbComVendas : DB :=
  { produtos := [produtoCamisa, produtoCaneca, produtoBala],
    clientes := [clienteTeste], vendedores := [vendedorTeste],
    vendas := [vendaPendente, vendaAutorizada],
    itens_venda := [], vendedor_vendas := [
      { vendedor_matricula := "654321", id_venda := 1, data_autorizacao := none },
      { vendedor_matricula := "654321", id_venda := 2, data_autorizacao := some 60 }],
    next_venda_id := 3, now := 100 }

/-! ## Transaction mechanics -/

theorem runSteps_nofail (fs : List (DB → DB)) : ∀ (k : Nat) (d : DB),
    runSteps (fun _ => false) k fs d = some (applySteps fs d) := by
  induction fs with
  | nil => intro k d; rfl
  | cons f rest ih => intro k d; simp only [runSteps, applySteps, if_false, Bool.false_eq_true]; exact ih (k + 1) (f d)

theorem runSteps_some (fails : Nat → Bool) (fs : List (DB → DB)) : ∀ (k : Nat) (d d' : DB),
    runSteps fails k fs d = some d' → d' = applySteps fs d := by
  induction fs with
  | nil => intro k d d' h; simpa [runSteps, applySteps] using h.symm
  | cons f rest ih =>
    intro k d d' h
    simp only [runSteps] at h
    by_cases hk : fails k
    · simp [hk] at h
    · simp only [hk, if_false, Bool.false_eq_true] at h
      exact ih (k + 1) (f d) d' h

theorem runSteps_none_of_fail (fails : Nat → Bool) (fs : List (DB → DB)) :
    ∀ (k : Nat), (∃ j, j < fs.length ∧ fails (k + j) = true) → ∀ (d : DB),
    runSteps fails k fs d = none := by
  induction fs with
  | nil => intro k h d; obtain ⟨j, hj, _⟩ := h; simp at hj
  | cons f rest ih =>
    intro k h d
    simp only [runSteps]
    by_cases hk : fails k
    · simp [hk]
    · simp only [hk, if_false, Bool.false_eq_true]
      obtain ⟨j, hj, hf⟩ := h
      cases j with
      | zero => simp at hf; exact absurd hf hk
      | succ j' =>
        refine ih (k + 1) ⟨j', ?_, ?_⟩ (f d)
        · simpa [Nat.succ_lt_succ_iff] using hj
        · simpa [Nat.add_assoc, Nat.add_comm 1 j'] using hf

theorem applySteps_nil (d : DB) : applySteps [] d = d := rfl

theorem applySteps_cons (f : DB → DB) (fs : List (DB → DB)) (d : DB) :
    applySteps (f :: fs) d = applySteps fs (f d) := rfl

theorem applySteps_itemSteps (venda_id : Nat) (itens : List ItemCarrinho) : ∀ (d : DB),
    applySteps (itens.flatMap (fun it => [insertItemStep venda_id it, updateEstoqueStep it])) d =
      { d with itens_venda := d.itens_venda ++ itens.map (novoItemVenda venda_id),
               produtos := itens.foldl (fun ps it => ps.map (decEstoque it)) d.produtos } := by
  induction itens with
  | nil => intro d; simp [applySteps_nil]
  | cons it rest ih =>
    intro d
    rw [List.flatMap_cons, List.cons_append, List.cons_append, List.nil_append,
      applySteps_cons, applySteps_cons, ih]
    simp [insertItemStep, updateEstoqueStep]

theorem applySteps_commitStepList (db : DB) (matricula : String) (valor_total : Rat)
    (forma_pagamento : String) (desconto : Option (String × Rat))
    (matricula_vendedor : String) (itens : List ItemCarrinho) :
    applySteps (commitStepList matricula valor_total forma_pagamento desconto
        matricula_vendedor db.next_venda_id itens) db =
      commitState db matricula valor_total forma_pagamento desconto matricula_vendedor itens := by
  simp only [commitStepList, applySteps]
  rw [applySteps_itemSteps]
  simp [insertVendaStep, insertAtribuicaoStep, commitState]

theorem commitStepList_length (matricula : String) (valor_total : Rat)
    (forma_pagamento : String) (desconto : Option (String × Rat))
    (matricula_vendedor : String) (venda_id : Nat) (itens : List ItemCarrinho) :
    (commitStepList matricula valor_total forma_pagamento desconto matricula_vendedor
      venda_id itens).length = 2 + 2 * itens.length := by
  have haux : ∀ (l : List ItemCarrinho),
      (l.flatMap (fun it => [insertItemStep venda_id it, updateEstoqueStep it])).length =
        2 * l.length := by
    intro l
    induction l with
    | nil => rfl
    | cons it rest ih =>
      rw [List.flatMap_cons, List.length_append, ih, List.length_cons]
      simp
      omega
  simp only [commitStepList, List.length_cons, haux]
  omega

/-- Success characterization of the commit block. -/
theorem registrar_venda_commit_some (db : DB) (matricula : String) (valor_total : Rat)
    (forma_pagamento : String) (desconto : Option (String × Rat))
    (matricula_vendedor : String) (itens : List ItemCarrinho) (fails : Nat → Bool)
    (db' : DB) (vid : Nat)
    (h : registrar_venda_commit db matricula valor_total forma_pagamento desconto
        matricula_vendedor itens fails = (db', some vid)) :
    vid = db.next_venda_id ∧
      db' = commitState db matricula valor_total forma_pagamento desconto
              matricula_vendedor itens := by
  unfold registrar_venda_commit at h
  cases hr : runSteps fails 0
      (commitStepList matricula valor_total forma_pagamento desconto matricula_vendedor
        db.next_venda_id itens) db with
  | none => rw [hr] at h; simp at h
  | some d =>
    rw [hr] at h
    have hd := runSteps_some fails _ 0 db d hr
    rw [applySteps_commitStepList] at hd
    obtain ⟨h1, h2⟩ := Prod.mk.injEq .. ▸ h
    refine ⟨by simpa using h2.symm, ?_⟩
    rw [← h1, hd]

/-- A commit with no statement failure succeeds and leaves `commitState`. -/
theorem registrar_venda_commit_nofail (db : DB) (matricula : String) (valor_total : Rat)
    (forma_pagamento : String) (desconto : Option (String × Rat))
    (matricula_vendedor : String) (itens : List ItemCarrinho) :
    registrar_venda_commit db matricula valor_total forma_pagamento desconto
        matricula_vendedor itens (fun _ => false) =
      (commitState db matricula valor_total forma_pagamento desconto matricula_vendedor itens,
       some db.next_venda_id) := by
  unfold registrar_venda_commit
  rw [runSteps_nofail, applySteps_commitStepList]

/-- A failure anywhere inside the commit block rolls everything back. -/
theorem registrar_venda_commit_fail (db : DB) (matricula : String) (valor_total : Rat)
    (forma_pagamento : String) (desconto : Option (String × Rat))
    (matricula_vendedor : String) (itens : List ItemCarrinho) (fails : Nat → Bool)
    (h : ∃ j, j < 2 + 2 * itens.length ∧ fails j = true) :
    registrar_venda_commit db matricula valor_total forma_pagamento desconto
        matricula_vendedor itens fails = (db, none) := by
  unfold registrar_venda_commit
  rw [runSteps_none_of_fail]
  rw [commitStepList_length]
  simpa using h

/-- The commit block reports an error only with the committed state
intact, and success only with the full `commitState`. -/
theorem registrar_venda_commit_cases (db : DB) (matricula : String) (valor_total : Rat)
    (forma_pagamento : String) (desconto : Option (String × Rat))
    (matricula_vendedor : String) (itens : List ItemCarrinho) (fails : Nat → Bool) :
    registrar_venda_commit db matricula valor_total forma_pagamento desconto
        matricula_vendedor itens fails = (db, none) ∨
    registrar_venda_commit db matricula valor_total forma_pagamento desconto
        matricula_vendedor itens fails =
      (commitState db matricula valor_total forma_pagamento desconto matricula_vendedor itens,
       some db.next_venda_id) := by
  unfold registrar_venda_commit
  cases hr : runSteps fails 0
      (commitStepList matricula valor_total forma_pagamento desconto matricula_vendedor
        db.next_venda_id itens) db with
  | none => exact Or.inl rfl
  | some d =>
    right
    have hd := runSteps_some fails _ 0 db d hr
    rw [applySteps_commitStepList] at hd
    rw [hd]

/-! ## Lookup helpers -/

theorem find?_map_key {α κ : Type} [DecidableEq κ] (key : α → κ) (f : α → α)
    (hk : ∀ x, key (f x) = key x) (k : κ) (l : List α) :
    (l.map f).find? (fun x => key x = k) = (l.find? (fun x => key x = k)).map f := by
  induction l with
  | nil => rfl
  | cons a t ih =>
    by_cases h : key a = k
    · simp [List.find?_cons, hk, h]
    · simp [List.find?_cons, hk, h, ih]

theorem find?_append_some {α : Type} (p : α → Bool) (l l' : List α) (x : α)
    (h : l.find? p = some x) : (l ++ l').find? p = some x := by
  rw [List.find?_append, h]; rfl

theorem forall₂_self {α : Type} (R : α → α → Prop) (hR : ∀ x, R x x) :
    ∀ (l : List α), List.Forall₂ R l l := by
  intro l
  induction l with
  | nil => exact List.Forall₂.nil
  | cons a t ih => exact List.Forall₂.cons (hR a) ih

theorem forall₂_map_self {α : Type} (R : α → α → Prop) (f : α → α) (hR : ∀ x, R x (f x)) :
    ∀ (l : List α), List.Forall₂ R l (l.map f) := by
  intro l
  induction l with
  | nil => exact List.Forall₂.nil
  | cons a t ih => exact List.Forall₂.cons (hR a) ih

/-! ## Properties of the binary64 conversion `pyFloat` -/

theorem ratLog2_spec (a : Rat) (ha : 0 < a) :
    (2 : Rat) ^ ratLog2 a ≤ a ∧ a < (2 : Rat) ^ (ratLog2 a + 1) := by
  have hnum : 0 < a.num := Rat.num_pos.mpr ha
  have hden : 0 < a.den := a.pos
  have hnum_cast : (a.num.natAbs : Int) = a.num := Int.natAbs_of_nonneg hnum.le
  by_cases h1 : 1 ≤ a
  · -- a ≥ 1 : the exponent is Nat.log2 ⌊a⌋
    rw [ratLog2, if_pos h1]
    set k : Nat := a.num.natAbs / a.den with hk
    have hk_floor : (k : Int) = ⌊a⌋ := by
      rw [Rat.floor_def, hk, Int.natCast_div, hnum_cast]
    have hk1 : 1 ≤ k := by
      have : (1 : Int) ≤ ⌊a⌋ := Int.le_floor.mpr (by exact_mod_cast h1)
      omega
    have hkne : k ≠ 0 := by omega
    have hlow : 2 ^ Nat.log2 k ≤ k := by
      rw [Nat.log2_eq_log_two]; exact Nat.pow_log_le_self 2 hkne
    have hhigh : k < 2 ^ (Nat.log2 k + 1) := by
      rw [Nat.log2_eq_log_two]; exact Nat.lt_pow_succ_log_self (by norm_num) k
    constructor
    · calc (2 : Rat) ^ (Nat.log2 k : Int) = ((2 ^ Nat.log2 k : Nat) : Rat) := by
            rw [zpow_natCast]; push_cast; ring
        _ ≤ (k : Rat) := by exact_mod_cast hlow
        _ = ((⌊a⌋ : Int) : Rat) := by rw [← hk_floor]; push_cast; ring
        _ ≤ a := Int.floor_le a
    · calc a < ((⌊a⌋ : Int) : Rat) + 1 := Int.lt_floor_add_one a
        _ = (k : Rat) + 1 := by rw [← hk_floor]; push_cast; ring
        _ ≤ ((2 ^ (Nat.log2 k + 1) : Nat) : Rat) := by exact_mod_cast hhigh
        _ = (2 : Rat) ^ ((Nat.log2 k : Int) + 1) := by
            rw [show ((Nat.log2 k : Int) + 1) = ((Nat.log2 k + 1 : Nat) : Int) by push_cast; ring,
              zpow_natCast]
            push_cast; ring
  · -- 0 < a < 1 : the exponent comes from Nat.log2 ⌊1/a⌋
    have ha1 : a < 1 := lt_of_not_le h1
    simp only [ratLog2, if_neg h1]
    set n : Nat := a.num.natAbs with hn
    set d : Nat := a.den with hd
    set K : Nat := d / n with hK
    set L : Nat := Nat.log2 K with hL
    have hn0 : 0 < n := by
      rw [hn]; exact Int.natAbs_pos.mpr (by omega)
    have hncast : (0 : Rat) < (n : Rat) := by exact_mod_cast hn0
    have ha_eq : a = (n : Rat) / (d : Rat) := by
      have hcast : ((n : Nat) : Rat) = ((a.num : Int) : Rat) := by exact_mod_cast hnum_cast
      rw [hcast, hd]
      exact (Rat.num_div_den a).symm
    have hd0 : (0 : Rat) < (d : Rat) := by exact_mod_cast hden
    have hnd : n < d := by
      have h1' : (n : Rat) / (d : Rat) < 1 := ha_eq ▸ ha1
      have := (div_lt_one hd0).mp h1'
      exact_mod_cast this
    have hK1 : 1 ≤ K := (Nat.one_le_div_iff hn0).mpr hnd.le
    have hlow : 2 ^ L ≤ K := by
      rw [hL, Nat.log2_eq_log_two]; exact Nat.pow_log_le_self 2 (by omega)
    have hhigh : K < 2 ^ (L + 1) := by
      rw [hL, Nat.log2_eq_log_two]; exact Nat.lt_pow_succ_log_self (by norm_num) K
    have hKn_le : K * n ≤ d := Nat.div_mul_le_self d n
    have hd_lt : d < (K + 1) * n := (Nat.div_lt_iff_lt_mul hn0).mp (Nat.lt_succ_self K)
    -- 2^L * a ≤ 1 and 1 < 2^(L+1) * a
    have hup : (2 : Rat) ^ L * a ≤ 1 := by
      rw [ha_eq, mul_div_assoc', div_le_one hd0]
      calc (2 : Rat) ^ L * (n : Rat) ≤ (K : Rat) * (n : Rat) := by
            have hcK : ((2 ^ L : Nat) : Rat) ≤ (K : Rat) := by exact_mod_cast hlow
            have h2 : ((2 ^ L : Nat) : Rat) = (2 : Rat) ^ L := by push_cast; ring
            nlinarith
        _ ≤ (d : Rat) := by exact_mod_cast hKn_le
    have hdown : (1 : Rat) < (2 : Rat) ^ (L + 1) * a := by
      rw [ha_eq, mul_div_assoc', lt_div_iff₀ hd0, one_mul]
      calc (d : Rat) < ((K + 1 : Nat) : Rat) * (n : Rat) := by exact_mod_cast hd_lt
        _ ≤ (2 : Rat) ^ (L + 1) * (n : Rat) := by
            have hcK : ((K + 1 : Nat) : Rat) ≤ ((2 ^ (L + 1) : Nat) : Rat) := by
              exact_mod_cast hhigh
            have h2 : ((2 ^ (L + 1) : Nat) : Rat) = (2 : Rat) ^ (L + 1) := by push_cast; ring
            nlinarith
    have h2L : (0 : Rat) < (2 : Rat) ^ L := by positivity
    by_cases hpow : (2 ^ L : Rat) * a = 1
    · rw [if_pos hpow]
      have haL : a = (2 : Rat) ^ (-(L : Int)) := by
        rw [zpow_neg, zpow_natCast]
        field_simp
        linarith
      constructor
      · rw [← haL]
      · have h2 : (2 : Rat) ^ (-(L : Int) + 1) = 2 * a := by
          rw [zpow_add₀ (by norm_num : (2:Rat) ≠ 0), haL]; ring
        rw [h2]; linarith
    · rw [if_neg hpow]
      have hstrict : (2 : Rat) ^ L * a < 1 := lt_of_le_of_ne hup hpow
      constructor
      · -- 2^(-L-1) ≤ a
        have h2L1 : (0 : Rat) < (2 : Rat) ^ (L + 1) := by positivity
        rw [show (-(L : Int) - 1) = -((L : Int) + 1) by ring, zpow_neg]
        rw [show ((L : Int) + 1) = ((L + 1 : Nat) : Int) by push_cast; ring, zpow_natCast]
        rw [inv_eq_one_div, div_le_iff₀ h2L1]
        linarith
      · -- a < 2^(-L-1+1) = 2^(-L)
        rw [show (-(L : Int) - 1 + 1) = -(L : Int) by ring, zpow_neg, zpow_natCast]
        rw [inv_eq_one_div, lt_div_iff₀ h2L]
        linarith

theorem roundHalfEven_intCast (m : Int) : roundHalfEven ((m : Int) : Rat) = m := by
  unfold roundHalfEven
  rw [Int.floor_intCast]
  norm_num

theorem pyFloat_dyadic (m j : Int) (hm : m ≠ 0) (hb : |m| < 2 ^ 53) :
    pyFloat ((m : Rat) * 2 ^ j) = (m : Rat) * 2 ^ j := by
  set q : Rat := (m : Rat) * 2 ^ j with hq
  have h2j : (0 : Rat) < 2 ^ j := by positivity
  have hq0 : q ≠ 0 := by
    rw [hq]
    exact mul_ne_zero (Int.cast_ne_zero.mpr hm) (ne_of_gt h2j)
  have habs : |q| = (|m| : Int) * (2 : Rat) ^ j := by
    rw [hq, abs_mul, abs_of_pos h2j]
    push_cast
    ring
  have habs_pos : (0 : Rat) < |q| := abs_pos.mpr hq0
  obtain ⟨hlo, hhi⟩ := ratLog2_spec |q| habs_pos
  set e : Int := ratLog2 |q| with he
  -- e ≤ j + 52 because |q| < 2^(j+53)
  have hmlt : ((|m| : Int) : Rat) < 2 ^ (53 : Nat) := by exact_mod_cast hb
  have hqlt : |q| < (2 : Rat) ^ (j + 53) := by
    rw [habs, zpow_add₀ (by norm_num : (2:Rat) ≠ 0)]
    calc ((|m| : Int) : Rat) * (2 : Rat) ^ j < 2 ^ (53 : Nat) * 2 ^ j := by
          nlinarith
      _ = (2 : Rat) ^ j * (2 : Rat) ^ (53 : Int) := by
          rw [show ((53 : Int)) = ((53 : Nat) : Int) by norm_num, zpow_natCast]; ring
  have hej : e ≤ j + 52 := by
    have : (2 : Rat) ^ e < (2 : Rat) ^ (j + 53) := lt_of_le_of_lt hlo hqlt
    have := (zpow_lt_zpow_iff_right₀ (by norm_num : (1:Rat) < 2)).mp this
    omega
  -- |q| * 2^(52-e) is the integer |m| * 2^(j+52-e)
  set t : Int := j + 52 - e with ht
  have ht0 : 0 ≤ t := by omega
  have hsc : |q| * (2 : Rat) ^ (52 - e) = ((|m| * 2 ^ t.toNat : Int) : Rat) := by
    have hstep : |q| * (2 : Rat) ^ (52 - e) = ((|m| : Int) : Rat) * (2 : Rat) ^ (j + (52 - e)) := by
      rw [habs, mul_assoc, ← zpow_add₀ (by norm_num : (2:Rat) ≠ 0)]
    have hexp : j + (52 - e) = (t.toNat : Int) := by
      rw [Int.toNat_of_nonneg ht0]; omega
    rw [hstep, hexp, zpow_natCast]
    push_cast
    ring
  have hscale : (0 : Rat) < (2 : Rat) ^ (52 - e) := by positivity
  simp only [pyFloat, if_neg hq0]
  rw [← he, hsc, roundHalfEven_intCast]
  rcases lt_or_gt_of_ne hq0 with hneg | hpos
  · rw [if_neg (by linarith : ¬ (0 : Rat) < q)]
    rw [show ((|m| * 2 ^ t.toNat : Int) : Rat) = |q| * (2 : Rat) ^ (52 - e) from hsc.symm]
    rw [abs_of_neg hneg]
    field_simp
  · rw [if_pos hpos]
    rw [show ((|m| * 2 ^ t.toNat : Int) : Rat) = |q| * (2 : Rat) ^ (52 - e) from hsc.symm]
    rw [abs_of_pos hpos]
    field_simp

/-- Every value `pyFloat` produces is dyadic: an integer times a power
of two.  (This is what "stored as a Python float" means; exact decimal
fractions with a factor 5 in the denominator are never dyadic.) -/
theorem pyFloat_dyadic_image (q : Rat) : ∃ m j : Int, pyFloat q = (m : Rat) * 2 ^ j := by
  by_cases h : q = 0
  · exact ⟨0, 0, by simp [pyFloat, h]⟩
  · refine ⟨(if 0 < q then 1 else -1) * roundHalfEven (|q| * 2 ^ (52 - ratLog2 |q|)),
      ratLog2 |q| - 52, ?_⟩
    simp only [pyFloat, if_neg h]
    rw [div_eq_mul_inv, ← zpow_neg]
    rw [show -(52 - ratLog2 |q|) = ratLog2 |q| - 52 by ring]
    push_cast
    by_cases hpos : 0 < q <;> simp [hpos]

theorem three_tenths_not_dyadic (m j : Int) : (3 / 10 : Rat) ≠ (m : Rat) * 2 ^ j := by
  intro h
  rcases le_or_lt 0 j with hj | hj
  · have hjn : j = (j.toNat : Int) := (Int.toNat_of_nonneg hj).symm
    rw [hjn, zpow_natCast] at h
    have h10 : (3 : Rat) = (m : Rat) * 2 ^ j.toNat * 10 := by
      field_simp at h
      linarith
    have hz : (3 : Int) = m * 2 ^ j.toNat * 10 := by exact_mod_cast h10
    have : (5 : Int) ∣ 3 := ⟨m * 2 ^ j.toNat * 2, by linarith⟩
    omega
  · have hjn : -j = ((-j).toNat : Int) := (Int.toNat_of_nonneg (by omega)).symm
    set k : Nat := (-j).toNat with hk
    have hzp : (2 : Rat) ^ j = ((2 : Rat) ^ k)⁻¹ := by
      rw [← zpow_natCast (2 : Rat) k, ← zpow_neg, ← hjn, neg_neg]
    rw [hzp] at h
    have h2k : (0 : Rat) < 2 ^ k := by positivity
    have h10 : (3 : Rat) * 2 ^ k = (m : Rat) * 10 := by
      field_simp at h
      linarith
    have hz : (3 : Int) * 2 ^ k = m * 10 := by exact_mod_cast h10
    have h5 : (5 : Int) ∣ 3 * 2 ^ k := ⟨m * 2, by linarith⟩
    have hp : Prime (5 : Int) := by norm_num
    rcases hp.dvd_mul.mp h5 with h3 | hpow
    · omega
    · have := hp.dvd_of_dvd_pow hpow
      omega

theorem pyFloat_three_tenths : pyFloat (3 / 10 : Rat) ≠ (3 / 10 : Rat) := by
  intro h
  obtain ⟨m, j, hmj⟩ := pyFloat_dyadic_image (3 / 10 : Rat)
  rw [h] at hmj
  exact three_tenths_not_dyadic m j hmj

theorem pyFloat_25 : pyFloat (25 : Rat) = 25 := by
  have := pyFloat_dyadic 25 0 (by norm_num) (by norm_num)
  simpa using this

theorem pyFloat_45_half : pyFloat (45 / 2 : Rat) = 45 / 2 := by
  have := pyFloat_dyadic 45 (-1) (by norm_num) (by norm_num)
  rw [show ((45 : Int) : Rat) * 2 ^ (-1 : Int) = 45 / 2 by
    rw [zpow_neg]; norm_num] at this
  exact this

theorem pyFloat_5_half : pyFloat (5 / 2 : Rat) = 5 / 2 := by
  have := pyFloat_dyadic 5 (-1) (by norm_num) (by norm_num)
  rw [show ((5 : Int) : Rat) * 2 ^ (-1 : Int) = 5 / 2 by
    rw [zpow_neg]; norm_num] at this
  exact this

/-- A fraction whose denominator carries the prime factor 5 while its
numerator does not is never an integer times a power of two — so no
such exact decimal survives conversion to a binary float. -/
theorem five_den_not_dyadic (n : Int) (d : Nat) (hd5 : (5 : Int) ∣ (d : Int))
    (hn5 : ¬ (5 : Int) ∣ n) (hd0 : 0 < d) (m j : Int) :
    (n : Rat) / (d : Rat) ≠ (m : Rat) * 2 ^ j := by
  intro h
  have hdq : (d : Rat) ≠ 0 := by
    have hpos : (0 : Rat) < (d : Rat) := by exact_mod_cast hd0
    exact hpos.ne'
  rcases le_or_lt 0 j with hj | hj
  · have hjn : j = (j.toNat : Int) := (Int.toNat_of_nonneg hj).symm
    rw [hjn, zpow_natCast] at h
    have h10 : (n : Rat) = (m : Rat) * 2 ^ j.toNat * (d : Rat) := (div_eq_iff hdq).mp h
    have hz : n = m * 2 ^ j.toNat * (d : Int) := by exact_mod_cast h10
    obtain ⟨d5, hd5'⟩ := hd5
    exact hn5 ⟨m * 2 ^ j.toNat * d5, by rw [hz, hd5']; ring⟩
  · have hjn : -j = ((-j).toNat : Int) := (Int.toNat_of_nonneg (by omega)).symm
    set k : Nat := (-j).toNat with hk
    have hzp : (2 : Rat) ^ j = ((2 : Rat) ^ k)⁻¹ := by
      rw [← zpow_natCast (2 : Rat) k, ← zpow_neg, ← hjn, neg_neg]
    rw [hzp, ← div_eq_mul_inv] at h
    have h2k : (0 : Rat) < 2 ^ k := by positivity
    have h10 : (n : Rat) * 2 ^ k = (m : Rat) * (d : Rat) :=
      (div_eq_div_iff hdq h2k.ne').mp h
    have hz : n * 2 ^ k = m * (d : Int) := by exact_mod_cast h10
    have h5 : (5 : Int) ∣ n * 2 ^ k := by
      obtain ⟨d5, hd5'⟩ := hd5
      exact ⟨m * d5, by rw [hz, hd5']; ring⟩
    have hp : Prime (5 : Int) := by norm_num
    rcases hp.dvd_mul.mp h5 with h5n | hpow
    · exact hn5 h5n
    · have := hp.dvd_of_dvd_pow hpow
      omega

theorem pyFloat_27_centesimos : pyFloat (27 / 100 : Rat) ≠ (27 / 100 : Rat) := by
  intro h
  obtain ⟨m, j, hmj⟩ := pyFloat_dyadic_image (27 / 100 : Rat)
  rw [h] at hmj
  have hmj' : ((27 : Int) : Rat) / ((100 : Nat) : Rat) = (m : Rat) * 2 ^ j := by
    push_cast
    exact hmj
  exact five_den_not_dyadic 27 100 (by norm_num) (by omega) (by norm_num) m j hmj'

theorem pyFloat_3_centesimos : pyFloat (3 / 100 : Rat) ≠ (3 / 100 : Rat) := by
  intro h
  obtain ⟨m, j, hmj⟩ := pyFloat_dyadic_image (3 / 100 : Rat)
  rw [h] at hmj
  have hmj' : ((3 : Int) : Rat) / ((100 : Nat) : Rat) = (m : Rat) * 2 ^ j := by
    push_cast
    exact hmj
  exact five_den_not_dyadic 3 100 (by norm_num) (by omega) (by norm_num) m j hmj'

/-! ## Behaviour of `autorizar_venda` -/

theorem autorizar_venda_nao_encontrada (db : DB) (vid : Nat) (conf : Bool) (fails : Nat → Bool)
    (hv : buscar_venda db vid = none) :
    autorizar_venda db vid conf fails = (db, .naoEncontrada) := by
  unfold autorizar_venda
  rw [hv]

theorem autorizar_venda_transicao_invalida (db : DB) (vid : Nat) (conf : Bool)
    (fails : Nat → Bool) (v : Venda) (hv : buscar_venda db vid = some v)
    (hst : v.status ≠ .PENDENTE) :
    autorizar_venda db vid conf fails = (db, .transicaoInvalida) := by
  unfold autorizar_venda
  rw [hv]
  simp [hst]

theorem autorizar_venda_success (db : DB) (vid : Nat) (fails : Nat → Bool) (v : Venda)
    (hv : buscar_venda db vid = some v) (hst : v.status = .PENDENTE)
    (hf : ∀ k, fails k = false) :
    autorizar_venda db vid true fails =
      (stampAutorizacaoStep vid (updateStatusStep vid db), .autorizada) := by
  have hfe : fails = fun _ => false := funext hf
  simp only [autorizar_venda, hv, hst, hfe, runSteps_nofail]
  simp [applySteps]

theorem updateStatusStep_id (vid : Nat) (v : Venda) :
    (if v.id = vid then { v with status := StatusVenda.AUTORIZADA } else v).id = v.id := by
  by_cases h : v.id = vid <;> simp [h]

theorem buscar_venda_stamp (db : DB) (j i : Nat) :
    buscar_venda (stampAutorizacaoStep j db) i = buscar_venda db i := rfl

theorem buscar_venda_updateStatus (db : DB) (j i : Nat) :
    buscar_venda (updateStatusStep j db) i =
      (buscar_venda db i).map
        (fun v => if v.id = j then { v with status := StatusVenda.AUTORIZADA } else v) := by
  unfold buscar_venda updateStatusStep
  exact find?_map_key Venda.id _ (updateStatusStep_id j) i db.vendas

/-- A sale already out of PENDENTE is untouched by any authorization
attempt, on any sale id. -/
theorem buscar_venda_autorizar_frame (db : DB) (j i : Nat) (conf : Bool) (fails : Nat → Bool)
    (v : Venda) (hv : buscar_venda db i = some v) (hst : v.status ≠ .PENDENTE) :
    buscar_venda (autorizar_venda db j conf fails).1 i = some v := by
  cases hb : buscar_venda db j with
  | none => simp only [autorizar_venda, hb]; exact hv
  | some w =>
    by_cases hw : w.status ≠ .PENDENTE
    · simp only [autorizar_venda, hb, if_pos hw]; exact hv
    · rcases Bool.eq_false_or_eq_true conf with hc | hc
      · cases hr : runSteps fails 0 [updateStatusStep j, stampAutorizacaoStep j] db with
        | none =>
          have hrun : autorizar_venda db j conf fails = (db, .erro) := by
            simp [autorizar_venda, hb, if_neg hw, hc, hr]
          rw [hrun]; exact hv
        | some d =>
          have hd' : d = stampAutorizacaoStep j (updateStatusStep j db) :=
            runSteps_some fails _ 0 db d hr
          have hrun : autorizar_venda db j conf fails = (d, .autorizada) := by
            simp [autorizar_venda, hb, if_neg hw, hc, hr]
          rw [hrun]
          rw [hd', buscar_venda_stamp, buscar_venda_updateStatus, hv]
          have hv' : List.find? (fun x => decide (x.id = i)) db.vendas = some v := hv
          have hvi : v.id = i := by simpa using List.find?_some hv'
          by_cases hij : i = j
          · exfalso
            rw [hij] at hv
            rw [hv] at hb
            have hwv : w = v := (Option.some.injEq ..).mp hb.symm
            rw [hwv] at hw
            exact hw hst
          · simp [hvi, hij]
      · have hrun : autorizar_venda db j conf fails = (db, .operacaoCancelada) := by
          simp [autorizar_venda, hb, if_neg hw, hc]
        rw [hrun]; exact hv

/-! ## Behaviour of `registrar_venda` -/

/-- `registrar_venda` either leaves the store untouched (any abort or
a rolled-back commit) or commits in full. -/
theorem registrar_venda_cases (regra : Cliente → Bool × String) (db : DB) (e : Bool)
    (m : String) (o : Nat) (mv : String) (p : List (Nat × String)) (c : Bool)
    (f : Nat → Bool) :
    registrar_venda regra db e m o mv p c f = (db, none) ∨
    ∃ vt fp desc itens, registrar_venda regra db e m o mv p c f =
      (commitState db m vt fp desc mv itens, some db.next_venda_id) := by
  unfold registrar_venda
  cases hb : buscar_cliente_por_matricula db m with
  | none => exact Or.inl rfl
  | some cli =>
    simp only
    by_cases ho : ¬(1 ≤ o ∧ o ≤ FORMAS_PAGAMENTO.length)
    · rw [if_pos ho]; exact Or.inl rfl
    · rw [if_neg ho]
      cases hvend : buscar_vendedor_por_matricula db mv with
      | none => exact Or.inl rfl
      | some vend =>
        simp only
        by_cases ha : ¬ (vend.ativo = true)
        · rw [if_pos ha]; exact Or.inl rfl
        · rw [if_neg ha]
          by_cases hl : (p.foldl (processar_pedido db) []).isEmpty = true
          · rw [if_pos hl]; exact Or.inl rfl
          · rw [if_neg hl]
            by_cases hc : ¬ (c = true)
            · rw [if_pos hc]; exact Or.inl rfl
            · rw [if_neg hc]
              rcases registrar_venda_commit_cases db m
                  (aplicar_desconto (subtotal (p.foldl (processar_pedido db) []))
                    (verificar_desconto regra db e m)).1
                  (FORMAS_PAGAMENTO.getD (o - 1) "")
                  (aplicar_desconto (subtotal (p.foldl (processar_pedido db) []))
                    (verificar_desconto regra db e m)).2
                  mv (p.foldl (processar_pedido db) []) f with h | h
              · rw [h]; exact Or.inl rfl
              · rw [h]; exact Or.inr ⟨_, _, _, _, rfl⟩

/-- Sales already in the store are found unchanged after any
`registrar_venda` call. -/
theorem buscar_venda_registrar_frame (regra : Cliente → Bool × String) (db : DB) (e : Bool)
    (m : String) (o : Nat) (mv : String) (p : List (Nat × String)) (c : Bool)
    (f : Nat → Bool) (i : Nat) (v : Venda) (hv : buscar_venda db i = some v) :
    buscar_venda (registrar_venda regra db e m o mv p c f).1 i = some v := by
  rcases registrar_venda_cases regra db e m o mv p c f with h | ⟨vt, fp, desc, itens, h⟩
  · rw [h]; exact hv
  · rw [h]
    unfold buscar_venda at hv ⊢
    dsimp only [commitState]
    exact find?_append_some _ _ _ _ hv

/-- A successful `registrar_venda` appends exactly one new sale row,
and that row is PENDENTE and carries the returned id. -/
theorem registrar_venda_some_spec (regra : Cliente → Bool × String) (db : DB) (e : Bool)
    (m : String) (o : Nat) (mv : String) (p : List (Nat × String)) (c : Bool)
    (f : Nat → Bool) (db' : DB) (vid : Nat)
    (h : registrar_venda regra db e m o mv p c f = (db', some vid)) :
    vid = db.next_venda_id ∧ ∃ vt fp desc itens,
      db' = commitState db m vt fp desc mv itens := by
  rcases registrar_venda_cases regra db e m o mv p c f with hcase | ⟨vt, fp, desc, itens, hcase⟩
  · rw [hcase] at h
    exact absurd (congrArg Prod.snd h) (by simp)
  · rw [hcase] at h
    have h1 := congrArg Prod.fst h
    have h2 := congrArg Prod.snd h
    simp only at h1 h2
    refine ⟨by simpa using h2.symm, vt, fp, desc, itens, h1.symm⟩

/-- A fully valid interactive session ends in the committed state. -/
theorem registrar_venda_valid_run (regra : Cliente → Bool × String) (db : DB) (e : Bool)
    (m : String) (o : Nat) (mv : String) (pedidos : List (Nat × String))
    (cli : Cliente) (vend : Vendedor)
    (hcli : buscar_cliente_por_matricula db m = some cli)
    (ho : 1 ≤ o ∧ o ≤ FORMAS_PAGAMENTO.length)
    (hvend : buscar_vendedor_por_matricula db mv = some vend)
    (hativo : vend.ativo = true)
    (hne : (pedidos.foldl (processar_pedido db) []).isEmpty = false) :
    registrar_venda regra db e m o mv pedidos true (fun _ => false) =
      (commitState db m
        (aplicar_desconto (subtotal (pedidos.foldl (processar_pedido db) []))
          (verificar_desconto regra db e m)).1
        (FORMAS_PAGAMENTO.getD (o - 1) "")
        (aplicar_desconto (subtotal (pedidos.foldl (processar_pedido db) []))
          (verificar_desconto regra db e m)).2
        mv (pedidos.foldl (processar_pedido db) []),
       some db.next_venda_id) := by
  unfold registrar_venda
  rw [hcli]
  simp only
  rw [if_neg (not_not_intro ho)]
  rw [hvend]
  simp only
  rw [if_neg (by simp [hativo])]
  rw [if_neg (by simp [hne])]
  rw [if_neg (by simp)]
  exact registrar_venda_commit_nofail db m _ _ _ mv _

/-! ## Behaviour of the add-item step -/

/-- After product resolution and a successful quantity parse, the add
reduces to the stock comparison. -/
theorem add_item_spec (db : DB) (itens : List ItemCarrinho) (pid : Nat) (qs : String)
    (q : Nat) (p : Produto) (hp : buscar_produto_por_id db pid = some p)
    (hq : pyIntParse qs = some (q : Int)) :
    add_item db itens pid qs =
      if (q : Int) ≤ p.quantidade then .ok (itens ++ [⟨pid, q, p.preco⟩])
      else .error .estoqueInsuficiente := by
  have hval : validar_quantidade qs = true := by
    unfold validar_quantidade; rw [hq]; simp
  have hget : ((pyIntParse qs).getD 0).toNat = q := by rw [hq]; simp
  unfold add_item
  rw [hp]
  simp only [hval, Bool.not_true, Bool.false_eq_true, if_false, hget]
  unfold verificar_estoque_suficiente
  rw [hp]
  by_cases hle : (q : Int) ≤ p.quantidade
  · simp [hle]
  · simp [hle]

theorem aplicar_desconto_none (s : Rat) : aplicar_desconto s none = (s, none) := rfl

theorem aplicar_desconto_some (s : Rat) (i : DescontoInfo) :
    aplicar_desconto s (some i) =
      if i.tem_desconto = true then (s - s * (1/10), some (i.motivo, s * (1/10)))
      else (s, none) := rfl

theorem decEstoque_id (it : ItemCarrinho) (p : Produto) : (decEstoque it p).id = p.id := by
  unfold decEstoque
  by_cases h : p.id = it.id_produto <;> simp [h]

theorem find?_produtos_decEstoque (l : List Produto) (it : ItemCarrinho) (pid : Nat) :
    (l.map (decEstoque it)).find? (fun x => x.id = pid) =
      (l.find? (fun x => x.id = pid)).map (decEstoque it) :=
  find?_map_key Produto.id _ (decEstoque_id it) pid l

/-! ## Claim theorems -/

/-- C1: the claim says stock is never decremented below zero and a
commit that would do so is rejected in full.  The code violates this:
with product 1 at stock 5, one sale adding quantity 3 twice passes the
per-add advisory check both times (3 ≤ 5), the commit succeeds, and
the recorded stock becomes -1 — no commit-time guard exists (the stock
UPDATE of venda.py lines 346-350 is unconditional). -/
theorem c1_estoque_negativo :
    add_item dbTeste [] 1 "3" = .ok [⟨1, 3, 10⟩] ∧
    add_item dbTeste [⟨1, 3, 10⟩] 1 "3" = .ok [⟨1, 3, 10⟩, ⟨1, 3, 10⟩] ∧
    (registrar_venda regraNenhuma dbTeste false "123456" 1 "654321"
        [(1, "3"), (1, "3")] true (fun _ => false)).2 = some 1 ∧
    ((registrar_venda regraNenhuma dbTeste false "123456" 1 "654321"
        [(1, "3"), (1, "3")] true (fun _ => false)).1.produtos.find?
      (fun p => p.id = 1)).map Produto.quantidade = some (-1) :=
  ⟨by decide, by decide, by decide, by decide⟩

/-- C7: adding a quantity above the product's currently recorded stock
fails with the insufficient-stock error and leaves the cart unchanged;
an add of a validated quantity succeeds, appending exactly one line
item with the snapshotted price, precisely when the quantity is at
most the recorded stock. -/
theorem c7_oversell_rejeitado (db : DB) (itens : List ItemCarrinho) (pid : Nat)
    (qs : String) (q : Nat) (p : Produto)
    (hp : buscar_produto_por_id db pid = some p)
    (hq : pyIntParse qs = some (q : Int)) :
    (p.quantidade < (q : Int) →
      add_item db itens pid qs = .error .estoqueInsuficiente ∧
      processar_pedido db itens (pid, qs) = itens) ∧
    ((q : Int) ≤ p.quantidade →
      add_item db itens pid qs = .ok (itens ++ [⟨pid, q, p.preco⟩]) ∧
      processar_pedido db itens (pid, qs) = itens ++ [⟨pid, q, p.preco⟩]) := by
  have hspec := add_item_spec db itens pid qs q p hp hq
  constructor
  · intro hlt
    have hnle : ¬ ((q : Int) ≤ p.quantidade) := not_le.mpr hlt
    rw [if_neg hnle] at hspec
    exact ⟨hspec, by unfold processar_pedido; rw [hspec]⟩
  · intro hle
    rw [if_pos hle] at hspec
    exact ⟨hspec, by unfold processar_pedido; rw [hspec]⟩

/-- Witness for C7 at stock 5: quantity 9 is rejected with the cart
untouched; quantity 4 is appended. -/
theorem c7_oversell_rejeitado_witness :
    (add_item dbTeste [] 1 "9" = .error .estoqueInsuficiente ∧
     processar_pedido dbTeste [] (1, "9") = []) ∧
    (add_item dbTeste [] 1 "4" = .ok [⟨1, 4, 10⟩] ∧
     processar_pedido dbTeste [] (1, "4") = [⟨1, 4, 10⟩]) := by
  constructor
  · exact (c7_oversell_rejeitado dbTeste [] 1 "9" 9 produtoCamisa
      (by decide) (by decide)).1 (by decide)
  · exact (c7_oversell_rejeitado dbTeste [] 1 "4" 4 produtoCamisa
      (by decide) (by decide)).2 (by decide)

/-- C8: the claim (and the function's own docstring, "inteiro
positivo") requires the quantity validation to accept exactly the
integers strictly greater than zero.  The code checks `int(q) >= 0`,
so the string "0" passes validation and a line item with quantity 0
enters the cart (stock check `0 <= 5` also passes). -/
theorem c8_quantidade_zero_aceita :
    validar_quantidade "0" = true ∧
    pyIntParse "0" = some 0 ∧
    add_item dbTeste [] 1 "0" = .ok [⟨1, 0, 10⟩] :=
  ⟨by decide, by decide, by decide⟩

/-- C10: each add is checked only against the product's full recorded
stock, ignoring what the cart already holds: with stock `s`, two adds
of `q1 ≤ s` and `q2 ≤ s` both succeed even when `q1 + q2 > s`, and the
commit then decrements the stock by `q1 + q2` unconditionally. -/
theorem c10_verificacao_ignora_carrinho (db : DB) (pid : Nat) (p : Produto) (q1 q2 : Nat)
    (qs1 qs2 : String) (m fp mvend : String) (desc : Option (String × Rat)) (vt : Rat)
    (hp : buscar_produto_por_id db pid = some p)
    (h1 : pyIntParse qs1 = some (q1 : Int)) (h2 : pyIntParse qs2 = some (q2 : Int))
    (hq1 : (q1 : Int) ≤ p.quantidade) (hq2 : (q2 : Int) ≤ p.quantidade) :
    add_item db [] pid qs1 = .ok [⟨pid, q1, p.preco⟩] ∧
    add_item db [⟨pid, q1, p.preco⟩] pid qs2 =
      .ok [⟨pid, q1, p.preco⟩, ⟨pid, q2, p.preco⟩] ∧
    ((registrar_venda_commit db m vt fp desc mvend
        [⟨pid, q1, p.preco⟩, ⟨pid, q2, p.preco⟩] (fun _ => false)).1.produtos.find?
      (fun x => x.id = pid)).map Produto.quantidade =
        some (p.quantidade - (q1 : Int) - (q2 : Int)) := by
  have hpid : p.id = pid := by
    have hp' : List.find? (fun x => decide (x.id = pid)) db.produtos = some p := hp
    simpa using List.find?_some hp'
  refine ⟨?_, ?_, ?_⟩
  · rw [add_item_spec db [] pid qs1 q1 p hp h1, if_pos hq1]; rfl
  · rw [add_item_spec db [⟨pid, q1, p.preco⟩] pid qs2 q2 p hp h2, if_pos hq2]; rfl
  · rw [registrar_venda_commit_nofail]
    dsimp only [commitState]
    rw [List.foldl_cons, List.foldl_cons, List.foldl_nil]
    rw [find?_produtos_decEstoque, find?_produtos_decEstoque]
    have hp' : List.find? (fun x => decide (x.id = pid)) db.produtos = some p := hp
    rw [hp']
    simp [decEstoque, hpid]

/-- On success, authorization flips the fetched PENDENTE sale to
AUTORIZADA. -/
theorem autorizar_venda_autoriza (db : DB) (vid : Nat) (fails : Nat → Bool) (v : Venda)
    (hv : buscar_venda db vid = some v) (hst : v.status = .PENDENTE)
    (hf : ∀ k, fails k = false) :
    (autorizar_venda db vid true fails).2 = .autorizada ∧
    buscar_venda (autorizar_venda db vid true fails).1 vid =
      some { v with status := .AUTORIZADA } := by
  rw [autorizar_venda_success db vid fails v hv hst hf]
  refine ⟨rfl, ?_⟩
  rw [show (stampAutorizacaoStep vid (updateStatusStep vid db), AutorizarResultado.autorizada).1
      = stampAutorizacaoStep vid (updateStatusStep vid db) from rfl]
  rw [buscar_venda_stamp, buscar_venda_updateStatus, hv]
  have hv' : List.find? (fun x => decide (x.id = vid)) db.vendas = some v := hv
  have hvi : v.id = vid := by simpa using List.find?_some hv'
  simp [hvi]

/-- `autorizar_venda` leaves the store unchanged or applies exactly the
status UPDATE and the timestamp UPDATE. -/
theorem autorizar_venda_fst_cases (db : DB) (vid : Nat) (conf : Bool) (fails : Nat → Bool) :
    (autorizar_venda db vid conf fails).1 = db ∨
    (autorizar_venda db vid conf fails).1 =
      stampAutorizacaoStep vid (updateStatusStep vid db) := by
  cases hb : buscar_venda db vid with
  | none => left; simp [autorizar_venda, hb]
  | some w =>
    by_cases hw : w.status ≠ .PENDENTE
    · left; simp [autorizar_venda, hb, if_pos hw]
    · rcases Bool.eq_false_or_eq_true conf with hc | hc
      · cases hr : runSteps fails 0 [updateStatusStep vid, stampAutorizacaoStep vid] db with
        | none => left; simp [autorizar_venda, hb, if_neg hw, hc, hr]
        | some d =>
          right
          have hd : d = stampAutorizacaoStep vid (updateStatusStep vid db) :=
            runSteps_some fails _ 0 db d hr
          simp [autorizar_venda, hb, if_neg hw, hc, hr, hd]
      · left; simp [autorizar_venda, hb, if_neg hw, hc]

theorem vendaFrame_refl (vid : Nat) (v : Venda) : VendaFrame vid v v :=
  ⟨rfl, rfl, rfl, rfl, rfl, rfl, rfl, rfl, Or.inl rfl⟩

theorem vendaFrame_upd (vid : Nat) (v : Venda) :
    VendaFrame vid v (if v.id = vid then { v with status := StatusVenda.AUTORIZADA } else v) := by
  by_cases h : v.id = vid
  · rw [if_pos h]
    exact ⟨rfl, rfl, rfl, rfl, rfl, rfl, rfl, rfl, Or.inr ⟨h, rfl⟩⟩
  · rw [if_neg h]
    exact vendaFrame_refl vid v

theorem atribuicaoFrame_refl (vid agora : Nat) (a : VendedorVenda) :
    AtribuicaoFrame vid agora a a := ⟨rfl, rfl, Or.inl rfl⟩

theorem atribuicaoFrame_upd (vid agora : Nat) (a : VendedorVenda) :
    AtribuicaoFrame vid agora a
      (if a.id_venda = vid then { a with data_autorizacao := some agora } else a) := by
  by_cases h : a.id_venda = vid
  · rw [if_pos h]
    exact ⟨rfl, rfl, Or.inr ⟨h, rfl⟩⟩
  · rw [if_neg h]
    exact atribuicaoFrame_refl vid agora a

/-- An AUTORIZADA sale is untouched by any single operation. -/
theorem buscar_venda_applyOp_frame (db : DB) (op : Op) (i : Nat) (v : Venda)
    (hv : buscar_venda db i = some v) (hst : v.status = .AUTORIZADA) :
    buscar_venda (applyOp db op) i = some v := by
  cases op with
  | registrar regra e m o mv p c f =>
    exact buscar_venda_registrar_frame regra db e m o mv p c f i v hv
  | autorizar vid conf fails =>
    exact buscar_venda_autorizar_frame db vid i conf fails v hv (by rw [hst]; decide)

/-- An AUTORIZADA sale is untouched by any sequence of operations. -/
theorem buscar_venda_applyOps_frame (db : DB) (ops : List Op) (i : Nat) (v : Venda)
    (hv : buscar_venda db i = some v) (hst : v.status = .AUTORIZADA) :
    buscar_venda (applyOps db ops) i = some v := by
  induction ops generalizing db with
  | nil => exact hv
  | cons op rest ih =>
    exact ih (applyOp db op) (buscar_venda_applyOp_frame db op i v hv hst)

/-- C3: the commit is atomic: an error leaves every table exactly as
before (full rollback); a statement failure anywhere in the block
forces the error outcome (never a partial success); and a success
leaves precisely the sale header, the attribution row, the line items,
and the stock decrements. -/
theorem c3_commit_atomico (db : DB) (m : String) (vt : Rat) (fp : String)
    (desc : Option (String × Rat)) (mvend : String) (itens : List ItemCarrinho)
    (fails : Nat → Bool) :
    ((registrar_venda_commit db m vt fp desc mvend itens fails).2 = none →
      (registrar_venda_commit db m vt fp desc mvend itens fails).1 = db) ∧
    ((∃ j, j < 2 + 2 * itens.length ∧ fails j = true) →
      registrar_venda_commit db m vt fp desc mvend itens fails = (db, none)) ∧
    (∀ (db' : DB) (vid : Nat),
        registrar_venda_commit db m vt fp desc mvend itens fails = (db', some vid) →
      vid = db.next_venda_id ∧
      db'.vendas = db.vendas ++ [novaVenda db m vt fp desc] ∧
      db'.vendedor_vendas = db.vendedor_vendas ++ [novaAtribuicao mvend db.next_venda_id] ∧
      db'.itens_venda = db.itens_venda ++ itens.map (novoItemVenda db.next_venda_id) ∧
      db'.produtos = itens.foldl (fun ps it => ps.map (decEstoque it)) db.produtos) := by
  refine ⟨?_, ?_, ?_⟩
  · intro h
    rcases registrar_venda_commit_cases db m vt fp desc mvend itens fails with hc | hc
    · rw [hc]
    · rw [hc] at h; simp at h
  · exact registrar_venda_commit_fail db m vt fp desc mvend itens fails
  · intro db' vid h
    obtain ⟨h1, h2⟩ := registrar_venda_commit_some db m vt fp desc mvend itens fails db' vid h
    subst h2
    exact ⟨h1, rfl, rfl, rfl, rfl⟩

/-- Witness for C3: a failure at the third statement (the first line
item) rolls the whole commit back; the error outcome restores the
original state. -/
theorem c3_commit_atomico_witness :
    registrar_venda_commit dbTeste "123456" 25 "Pix" none "654321"
      [⟨1, 2, 10⟩] (fun k => k = 2) = (dbTeste, none) ∧
    (registrar_venda_commit dbTeste "123456" 25 "Pix" none "654321"
      [⟨1, 2, 10⟩] (fun k => k = 2)).1 = dbTeste := by
  constructor
  · exact (c3_commit_atomico dbTeste "123456" 25 "Pix" none "654321" [⟨1, 2, 10⟩]
      (fun k => k = 2)).2.1 ⟨2, by norm_num, by decide⟩
  · exact (c3_commit_atomico dbTeste "123456" 25 "Pix" none "654321" [⟨1, 2, 10⟩]
      (fun k => k = 2)).1 (by decide)

/-- C4: every committed sale starts PENDENTE; authorizing a PENDENTE
sale succeeds and moves it to AUTORIZADA; authorizing any sale not
currently PENDENTE fails with the invalid-transition outcome and
changes nothing; and no sequence of sale-module operations ever moves
a sale out of AUTORIZADA. -/
theorem c4_maquina_de_estados :
    (∀ (regra : Cliente → Bool × String) (db : DB) (e : Bool) (m : String) (o : Nat)
        (mv : String) (p : List (Nat × String)) (c : Bool) (f : Nat → Bool) (db' : DB)
        (vid : Nat), registrar_venda regra db e m o mv p c f = (db', some vid) →
      db'.vendas.map Venda.status = db.vendas.map Venda.status ++ [.PENDENTE] ∧
      vid = db.next_venda_id) ∧
    (∀ (db : DB) (vid : Nat) (fails : Nat → Bool) (v : Venda),
        buscar_venda db vid = some v → v.status = .PENDENTE → (∀ k, fails k = false) →
      (autorizar_venda db vid true fails).2 = .autorizada ∧
      buscar_venda (autorizar_venda db vid true fails).1 vid =
        some { v with status := .AUTORIZADA }) ∧
    (∀ (db : DB) (vid : Nat) (conf : Bool) (fails : Nat → Bool) (v : Venda),
        buscar_venda db vid = some v → v.status ≠ .PENDENTE →
      autorizar_venda db vid conf fails = (db, .transicaoInvalida)) ∧
    (∀ (db : DB) (ops : List Op) (i : Nat) (v : Venda),
        buscar_venda db i = some v → v.status = .AUTORIZADA →
      buscar_venda (applyOps db ops) i = some v) := by
  refine ⟨?_, ?_, ?_, ?_⟩
  · intro regra db e m o mv p c f db' vid h
    obtain ⟨h1, vt, fp, desc, itens, h2⟩ :=
      registrar_venda_some_spec regra db e m o mv p c f db' vid h
    subst h2
    exact ⟨by simp [commitState, novaVenda], h1⟩
  · exact autorizar_venda_autoriza
  · exact fun db vid conf fails v hv hst =>
      autorizar_venda_transicao_invalida db vid conf fails v hv hst
  · exact fun db ops i v hv hst => buscar_venda_applyOps_frame db ops i v hv hst

/-- Witness for C4: on the fixture store, a committed sale surfaces as
PENDENTE; authorizing sale 1 (PENDENTE) yields AUTORIZADA; authorizing
sale 2 (already AUTORIZADA) is the invalid transition and changes
nothing; and sale 2 stays AUTORIZADA across further operations. -/
theorem c4_maquina_de_estados_witness :
    (registrar_venda regraNenhuma dbTeste false "123456" 1 "654321" [(1, "2")] true
      (fun _ => false)).1.vendas.map Venda.status = [.PENDENTE] ∧
    ((autorizar_venda dbComVendas 1 true (fun _ => false)).2 = .autorizada ∧
      buscar_venda (autorizar_venda dbComVendas 1 true (fun _ => false)).1 1 =
        some { vendaPendente with status := .AUTORIZADA }) ∧
    autorizar_venda dbComVendas 2 true (fun _ => false) =
      (dbComVendas, .transicaoInvalida) ∧
    buscar_venda (applyOps dbComVendas
      [Op.autorizar 2 true (fun _ => false), Op.autorizar 1 true (fun _ => false)]) 2 =
        some vendaAutorizada := by
  refine ⟨?_, ?_, ?_, ?_⟩
  · have h2 : (registrar_venda regraNenhuma dbTeste false "123456" 1 "654321" [(1, "2")] true
        (fun _ => false)).2 = some 1 := by decide
    have h : registrar_venda regraNenhuma dbTeste false "123456" 1 "654321" [(1, "2")] true
        (fun _ => false) =
        ((registrar_venda regraNenhuma dbTeste false "123456" 1 "654321" [(1, "2")] true
          (fun _ => false)).1, some 1) := by
      rw [← h2, Prod.mk.eta]
    have := (c4_maquina_de_estados).1 regraNenhuma dbTeste false "123456" 1 "654321"
      [(1, "2")] true (fun _ => false) _ 1 h
    simpa using this.1
  · exact (c4_maquina_de_estados).2.1 dbComVendas 1 (fun _ => false) vendaPendente
      (by decide) (by decide) (fun _ => rfl)
  · exact (c4_maquina_de_estados).2.2.1 dbComVendas 2 true (fun _ => false) vendaAutorizada
      (by decide) (by decide)
  · exact (c4_maquina_de_estados).2.2.2 dbComVendas
      [Op.autorizar 2 true (fun _ => false), Op.autorizar 1 true (fun _ => false)] 2
      vendaAutorizada (by decide) (by decide)

/-- C5: authorization touches nothing but the status column of the
named sale and the authorization timestamp of its attribution rows:
products (stock included), customers, sellers, line items, the id
counter, and every other column of every sale and attribution row are
left exactly as they were, on every control path. -/
theorem c5_frame_autorizacao (db : DB) (vid : Nat) (conf : Bool) (fails : Nat → Bool) :
    (autorizar_venda db vid conf fails).1.produtos = db.produtos ∧
    (autorizar_venda db vid conf fails).1.clientes = db.clientes ∧
    (autorizar_venda db vid conf fails).1.vendedores = db.vendedores ∧
    (autorizar_venda db vid conf fails).1.itens_venda = db.itens_venda ∧
    (autorizar_venda db vid conf fails).1.next_venda_id = db.next_venda_id ∧
    List.Forall₂ (VendaFrame vid) db.vendas (autorizar_venda db vid conf fails).1.vendas ∧
    List.Forall₂ (AtribuicaoFrame vid db.now) db.vendedor_vendas
      (autorizar_venda db vid conf fails).1.vendedor_vendas := by
  rcases autorizar_venda_fst_cases db vid conf fails with h | h <;> rw [h]
  · exact ⟨rfl, rfl, rfl, rfl, rfl, forall₂_self _ (vendaFrame_refl vid) _,
      forall₂_self _ (atribuicaoFrame_refl vid db.now) _⟩
  · refine ⟨rfl, rfl, rfl, rfl, rfl, ?_, ?_⟩
    · exact forall₂_map_self _ _ (vendaFrame_upd vid) _
    · exact forall₂_map_self _ _ (atribuicaoFrame_upd vid db.now) _

/-- Witness for C10 at stock 5: two adds of 4 both pass, and the
commit leaves stock -3. -/
theorem c10_verificacao_ignora_carrinho_witness :
    add_item dbTeste [] 1 "4" = .ok [⟨1, 4, 10⟩] ∧
    add_item dbTeste [⟨1, 4, 10⟩] 1 "4" = .ok [⟨1, 4, 10⟩, ⟨1, 4, 10⟩] ∧
    ((registrar_venda_commit dbTeste "123456" 80 "Pix" none "654321"
        [⟨1, 4, 10⟩, ⟨1, 4, 10⟩] (fun _ => false)).1.produtos.find?
      (fun x => x.id = 1)).map Produto.quantidade = some (-3) := by
  have h := c10_verificacao_ignora_carrinho dbTeste 1 produtoCamisa 4 4 "4" "4"
    "123456" "Pix" "654321" none 80 (by decide) (by decide) (by decide)
    (by decide) (by decide)
  simpa using h

/-- C2 (amended): with no qualifying discount the total computed by
commit is exactly the sum of quantity times unit price; with a
qualifying discount it is exactly (9/10) of that subtotal with
discount amount exactly (1/10) of it; the value the commit records in
the sale row is the binary64 (`float`) image of that computed total —
`pyFloat` of it, likewise for the discount amount — which coincides
with the exact value on the example cart: [(2, 10.00), (1, 5.00)]
records total 25.00 without discount, and total 22.50 with discount
amount 2.50 when the discount qualifies. -/
theorem c2_total_correto :
    (∀ (itens : List ItemCarrinho),
      aplicar_desconto (subtotal itens) none = (subtotal itens, none)) ∧
    (∀ (itens : List ItemCarrinho) (i : DescontoInfo), i.tem_desconto = false →
      aplicar_desconto (subtotal itens) (some i) = (subtotal itens, none)) ∧
    (∀ (itens : List ItemCarrinho) (i : DescontoInfo), i.tem_desconto = true →
      (aplicar_desconto (subtotal itens) (some i)).1 = (9/10) * subtotal itens ∧
      (aplicar_desconto (subtotal itens) (some i)).2 =
        some (i.motivo, (1/10) * subtotal itens)) ∧
    (subtotal [⟨1, 2, 10⟩, ⟨2, 1, 5⟩] = 25) ∧
    (∀ db : DB,
      ((registrar_venda_commit db "123456"
          (aplicar_desconto (subtotal [⟨1, 2, 10⟩, ⟨2, 1, 5⟩]) none).1 "Pix"
          (aplicar_desconto (subtotal [⟨1, 2, 10⟩, ⟨2, 1, 5⟩]) none).2 "654321"
          [⟨1, 2, 10⟩, ⟨2, 1, 5⟩] (fun _ => false)).1.vendas.getLast?).map
        (fun v => (v.valor_total, v.desconto_aplicado, v.valor_desconto)) =
          some (25, false, none)) ∧
    (∀ (db : DB) (i : DescontoInfo), i.tem_desconto = true →
      ((registrar_venda_commit db "123456"
          (aplicar_desconto (subtotal [⟨1, 2, 10⟩, ⟨2, 1, 5⟩]) (some i)).1 "Pix"
          (aplicar_desconto (subtotal [⟨1, 2, 10⟩, ⟨2, 1, 5⟩]) (some i)).2 "654321"
          [⟨1, 2, 10⟩, ⟨2, 1, 5⟩] (fun _ => false)).1.vendas.getLast?).map
        (fun v => (v.valor_total, v.desconto_aplicado, v.valor_desconto,
                   v.motivo_desconto)) =
          some (45/2, true, some (5/2), some i.motivo)) ∧
    (∀ (db : DB) (m fp mvend : String) (vt : Rat) (desc : Option (String × Rat))
        (itens : List ItemCarrinho),
      ((registrar_venda_commit db m vt fp desc mvend itens
          (fun _ => false)).1.vendas.getLast?).map
        (fun v => (v.valor_total, v.valor_desconto)) =
          some (pyFloat vt, desc.map (fun p => pyFloat p.2))) := by
  have hsub : subtotal [⟨1, 2, 10⟩, ⟨2, 1, 5⟩] = 25 := by
    norm_num [subtotal, List.foldl]
  refine ⟨?_, ?_, ?_, hsub, ?_, ?_, ?_⟩
  · intro itens; rfl
  · intro itens i hi
    rw [aplicar_desconto_some, if_neg (by simp [hi])]
  · intro itens i hi
    rw [aplicar_desconto_some, if_pos (by simp [hi])]
    constructor
    · ring
    · rw [show subtotal itens * (1/10) = (1/10) * subtotal itens from by ring]
  · intro db
    rw [registrar_venda_commit_nofail]
    dsimp only [commitState]
    rw [List.getLast?_concat]
    have h1 : (aplicar_desconto (subtotal [⟨1, 2, 10⟩, ⟨2, 1, 5⟩]) none).1 = 25 := by
      rw [show aplicar_desconto (subtotal [⟨1, 2, 10⟩, ⟨2, 1, 5⟩]) none
          = (subtotal [⟨1, 2, 10⟩, ⟨2, 1, 5⟩], none) from rfl, hsub]
    simp only [Option.map_some, novaVenda, h1, pyFloat_25]
    rfl
  · intro db i hi
    rw [registrar_venda_commit_nofail]
    dsimp only [commitState]
    rw [List.getLast?_concat]
    have h1 : (aplicar_desconto (subtotal [⟨1, 2, 10⟩, ⟨2, 1, 5⟩]) (some i)).1 = 45/2 := by
      rw [aplicar_desconto_some, if_pos (by simp [hi]), hsub]
      norm_num
    have h2 : (aplicar_desconto (subtotal [⟨1, 2, 10⟩, ⟨2, 1, 5⟩]) (some i)).2 =
        some (i.motivo, 5/2) := by
      rw [aplicar_desconto_some, if_pos (by simp [hi]), hsub]
      norm_num
    simp only [Option.map_some, novaVenda, h1, h2, pyFloat_45_half, pyFloat_5_half]
    simp [pyFloat_5_half]
  · intro db m fp mvend vt desc itens
    rw [registrar_venda_commit_nofail]
    dsimp only [commitState, novaVenda]
    rw [List.getLast?_concat]
    rfl

/-- C2 counterexample: the claim as frozen says the total *recorded*
by commit equals subtotal·0.90 (discount amount subtotal·0.10) for
every cart with a qualifying discount.  On the cart
[(qty 1, price 0.30)] the computed total is exactly 27/100 and the
discount exactly 3/100, yet the committed row stores their `float`
images, which differ: float(0.27) ≠ 27/100 and float(0.03) ≠ 3/100. -/
theorem c2_total_gravado_contraexemplo :
    subtotal [⟨3, 1, 3/10⟩] = 3/10 ∧
    (aplicar_desconto (subtotal [⟨3, 1, 3/10⟩]) (some ⟨true, "Sócio", "", "", false⟩)).1 =
      (9/10) * subtotal [⟨3, 1, 3/10⟩] ∧
    ((registrar_venda_commit dbTeste "123456"
        (aplicar_desconto (subtotal [⟨3, 1, 3/10⟩]) (some ⟨true, "Sócio", "", "", false⟩)).1
        "Pix"
        (aplicar_desconto (subtotal [⟨3, 1, 3/10⟩]) (some ⟨true, "Sócio", "", "", false⟩)).2
        "654321" [⟨3, 1, 3/10⟩] (fun _ => false)).1.vendas.getLast?).map Venda.valor_total ≠
      some ((9/10) * subtotal [⟨3, 1, 3/10⟩]) ∧
    ((registrar_venda_commit dbTeste "123456"
        (aplicar_desconto (subtotal [⟨3, 1, 3/10⟩]) (some ⟨true, "Sócio", "", "", false⟩)).1
        "Pix"
        (aplicar_desconto (subtotal [⟨3, 1, 3/10⟩]) (some ⟨true, "Sócio", "", "", false⟩)).2
        "654321" [⟨3, 1, 3/10⟩] (fun _ => false)).1.vendas.getLast?).map Venda.valor_desconto ≠
      some (some ((1/10) * subtotal [⟨3, 1, 3/10⟩])) := by
  have hsub : subtotal [⟨3, 1, 3/10⟩] = 3/10 := by norm_num [subtotal, List.foldl]
  have hap1 : (aplicar_desconto (subtotal [⟨3, 1, 3/10⟩])
      (some ⟨true, "Sócio", "", "", false⟩)).1 = 27/100 := by
    rw [aplicar_desconto_some, if_pos rfl, hsub]
    norm_num
  have hap1' : (aplicar_desconto (3/10 : Rat)
      (some ⟨true, "Sócio", "", "", false⟩)).1 = 27/100 := by
    rw [aplicar_desconto_some, if_pos rfl]
    norm_num
  have hap2' : (aplicar_desconto (3/10 : Rat)
      (some ⟨true, "Sócio", "", "", false⟩)).2 = some ("Sócio", 3/100) := by
    rw [aplicar_desconto_some, if_pos rfl]
    norm_num
  refine ⟨hsub, ?_, ?_, ?_⟩
  · rw [hap1, hsub]
    norm_num
  · rw [registrar_venda_commit_nofail]
    dsimp only [commitState, novaVenda]
    rw [List.getLast?_concat, hsub]
    intro hcontra
    have h1 := Option.some.inj (by simpa using hcontra)
    rw [hap1'] at h1
    rw [show ((9 : Rat)/10) * (3/10) = 27/100 from by norm_num] at h1
    exact pyFloat_27_centesimos h1
  · rw [registrar_venda_commit_nofail]
    dsimp only [commitState, novaVenda]
    rw [List.getLast?_concat, hsub]
    intro hcontra
    rw [Option.map_some'] at hcontra
    have h1 := Option.some.inj hcontra
    dsimp only at h1
    rw [hap2', Option.map_some'] at h1
    have h2 := Option.some.inj h1
    rw [show ((1 : Rat)/10) * (3/10) = 3/100 from by norm_num] at h2
    exact pyFloat_3_centesimos h2

/-- Witness for C2: the example cart, with the always-qualifying rule,
ends in a committed row with total 22.50 and discount 2.50; without a
discount the row records 25.00. -/
theorem c2_total_correto_witness :
    subtotal [⟨1, 2, 10⟩, ⟨2, 1, 5⟩] = 25 ∧
    (aplicar_desconto (subtotal [⟨1, 2, 10⟩, ⟨2, 1, 5⟩])
        (some ⟨true, "Sócio", "", "", false⟩)).1 =
      (9/10) * subtotal [⟨1, 2, 10⟩, ⟨2, 1, 5⟩] ∧
    ((registrar_venda_commit dbTeste "123456"
        (aplicar_desconto (subtotal [⟨1, 2, 10⟩, ⟨2, 1, 5⟩]) none).1 "Pix"
        (aplicar_desconto (subtotal [⟨1, 2, 10⟩, ⟨2, 1, 5⟩]) none).2 "654321"
        [⟨1, 2, 10⟩, ⟨2, 1, 5⟩] (fun _ => false)).1.vendas.getLast?).map
      (fun v => (v.valor_total, v.desconto_aplicado, v.valor_desconto)) =
        some (25, false, none) ∧
    ((registrar_venda_commit dbTeste "123456"
        (aplicar_desconto (subtotal [⟨1, 2, 10⟩, ⟨2, 1, 5⟩])
          (some ⟨true, "Sócio", "", "", false⟩)).1 "Pix"
        (aplicar_desconto (subtotal [⟨1, 2, 10⟩, ⟨2, 1, 5⟩])
          (some ⟨true, "Sócio", "", "", false⟩)).2 "654321"
        [⟨1, 2, 10⟩, ⟨2, 1, 5⟩] (fun _ => false)).1.vendas.getLast?).map
      (fun v => (v.valor_total, v.desconto_aplicado, v.valor_desconto,
                 v.motivo_desconto)) =
        some (45/2, true, some (5/2), some "Sócio") :=
  ⟨c2_total_correto.2.2.2.1,
   (c2_total_correto.2.2.1 [⟨1, 2, 10⟩, ⟨2, 1, 5⟩] ⟨true, "Sócio", "", "", false⟩ rfl).1,
   c2_total_correto.2.2.2.2.1 dbTeste,
   c2_total_correto.2.2.2.2.2.1 dbTeste ⟨true, "Sócio", "", "", false⟩ rfl⟩

/-- C6 counterexample: the claim requires monetary values to stay in
exact decimal representation through persistence, but the commit
stores `float(valor_total)`: committing the cart [(qty 1, price 0.30)]
with no discount persists a total different from the exact decimal
total 3/10. -/
theorem c6_persistencia_nao_decimal :
    subtotal [⟨3, 1, 3/10⟩] = 3/10 ∧
    ((registrar_venda_commit dbTeste "123456" (subtotal [⟨3, 1, 3/10⟩]) "Pix" none "654321"
        [⟨3, 1, 3/10⟩] (fun _ => false)).1.vendas.getLast?).map Venda.valor_total ≠
      some (3/10) := by
  have hsub : subtotal [⟨3, 1, 3/10⟩] = 3/10 := by norm_num [subtotal, List.foldl]
  refine ⟨hsub, ?_⟩
  rw [registrar_venda_commit_nofail]
  dsimp only [commitState]
  rw [List.getLast?_concat]
  intro h
  have hval : (novaVenda dbTeste "123456" (subtotal [⟨3, 1, 3/10⟩]) "Pix" none).valor_total
      = 3/10 := by simpa using h
  rw [show (novaVenda dbTeste "123456" (subtotal [⟨3, 1, 3/10⟩]) "Pix" none).valor_total
      = pyFloat (subtotal [⟨3, 1, 3/10⟩]) from rfl, hsub] at hval
  exact pyFloat_three_tenths hval

/-- C6 (amended): the total computation itself is exact decimal
(rational) arithmetic — a qualifying discount gives exactly
(9/10)·subtotal — but every monetary value the commit persists is the
binary64 `float(...)` image of the exact decimal: the stored total and
discount equal `pyFloat` of the computed values (hence are dyadic
rationals), and each stored unit price equals `pyFloat` of the
snapshotted price. -/
theorem c6_persistencia_binaria (db : DB) (m : String) (vt : Rat) (fp : String)
    (desc : Option (String × Rat)) (mvend : String) (itens : List ItemCarrinho)
    (fails : Nat → Bool) (db' : DB) (vid : Nat)
    (h : registrar_venda_commit db m vt fp desc mvend itens fails = (db', some vid)) :
    (∀ (i : DescontoInfo), i.tem_desconto = true →
      (aplicar_desconto (subtotal itens) (some i)).1 = (9/10) * subtotal itens) ∧
    db'.vendas = db.vendas ++ [novaVenda db m vt fp desc] ∧
    (novaVenda db m vt fp desc).valor_total = pyFloat vt ∧
    (∃ mi ji : Int, pyFloat vt = (mi : Rat) * 2 ^ ji) ∧
    (novaVenda db m vt fp desc).valor_desconto = desc.map (fun p => pyFloat p.2) ∧
    db'.itens_venda = db.itens_venda ++ itens.map (novoItemVenda db.next_venda_id) ∧
    (∀ it : ItemCarrinho, (novoItemVenda db.next_venda_id it).valor_unitario =
      pyFloat it.preco_unitario) := by
  obtain ⟨h1, h2⟩ := registrar_venda_commit_some db m vt fp desc mvend itens fails db' vid h
  subst h2
  refine ⟨?_, rfl, rfl, pyFloat_dyadic_image vt, rfl, rfl, fun it => rfl⟩
  intro i hi
  rw [aplicar_desconto_some, if_pos (by simp [hi])]
  ring

/-- Witness for C6 (amended), at the 0.30-price cart. -/
theorem c6_persistencia_binaria_witness :
    (commitState dbTeste "123456" (3/10) "Pix" none "654321" [⟨3, 1, 3/10⟩]).vendas =
      dbTeste.vendas ++ [novaVenda dbTeste "123456" (3/10) "Pix" none] ∧
    (novaVenda dbTeste "123456" (3/10) "Pix" none).valor_total = pyFloat (3/10) := by
  have h := c6_persistencia_binaria dbTeste "123456" (3/10) "Pix" none "654321"
    [⟨3, 1, 3/10⟩] (fun _ => false) _ _
    (registrar_venda_commit_nofail dbTeste "123456" (3/10) "Pix" none "654321" [⟨3, 1, 3/10⟩])
  exact ⟨h.2.1, h.2.2.1⟩

/-- C9: the discount resolver treats a missing customer as not
eligible (it reports a not-eligible row rather than failing), a lookup
error as "no information" (`None`), and in that degraded path the sale
still commits, with no discount applied.  The resolver itself is a
read-only query: it is a pure function of the store. -/
theorem c9_resolvedor_degradado :
    (∀ (regra : Cliente → Bool × String) (db : DB) (m : String),
        buscar_cliente_por_matricula db m = none →
      verificar_desconto regra db false m =
        some { tem_desconto := false, motivo := "", time := "", cidade := "",
               assiste_one_piece := false }) ∧
    (∀ (regra : Cliente → Bool × String) (db : DB) (m : String),
      verificar_desconto regra db true m = none) ∧
    (∀ (regra : Cliente → Bool × String) (db : DB) (m : String) (o : Nat) (mv : String)
        (pedidos : List (Nat × String)) (cli : Cliente) (vend : Vendedor),
        buscar_cliente_por_matricula db m = some cli →
        1 ≤ o → o ≤ FORMAS_PAGAMENTO.length →
        buscar_vendedor_por_matricula db mv = some vend → vend.ativo = true →
        (pedidos.foldl (processar_pedido db) []).isEmpty = false →
      (registrar_venda regra db true m o mv pedidos true (fun _ => false)).2 =
        some db.next_venda_id ∧
      (registrar_venda regra db true m o mv pedidos true (fun _ => false)).1.vendas =
        db.vendas ++ [novaVenda db m
          (subtotal (pedidos.foldl (processar_pedido db) []))
          (FORMAS_PAGAMENTO.getD (o - 1) "") none] ∧
      (novaVenda db m (subtotal (pedidos.foldl (processar_pedido db) []))
        (FORMAS_PAGAMENTO.getD (o - 1) "") none).desconto_aplicado = false) := by
  refine ⟨?_, ?_, ?_⟩
  · intro regra db m hm
    unfold verificar_desconto verificar_desconto_sql
    rw [hm]
    rfl
  · intro regra db m
    rfl
  · intro regra db m o mv pedidos cli vend hcli ho1 ho2 hvend hativo hne
    have hrun := registrar_venda_valid_run regra db true m o mv pedidos cli vend
      hcli ⟨ho1, ho2⟩ hvend hativo hne
    refine ⟨?_, ?_, rfl⟩
    · rw [hrun]
    · rw [hrun]
      exact rfl

/-- Witness for C9: a lookup error yields no discount information even
under the always-qualifying rule; an unknown customer yields the
not-eligible row; and in the degraded (error) path the sale commits
with the discount flag off. -/
theorem c9_resolvedor_degradado_witness :
    verificar_desconto regraSocio dbTeste true "123456" = none ∧
    verificar_desconto regraSocio dbTeste false "999999" =
      some { tem_desconto := false, motivo := "", time := "", cidade := "",
             assiste_one_piece := false } ∧
    (registrar_venda regraSocio dbTeste true "123456" 1 "654321" [(1, "2")] true
      (fun _ => false)).2 = some 1 ∧
    (registrar_venda regraSocio dbTeste true "123456" 1 "654321" [(1, "2")] true
      (fun _ => false)).1.vendas.map Venda.desconto_aplicado = [false] := by
  have h := c9_resolvedor_degradado.2.2 regraSocio dbTeste "123456" 1 "654321" [(1, "2")]
    clienteTeste vendedorTeste (by decide) (by norm_num) (by decide) (by decide)
    (by decide) (by decide)
  refine ⟨c9_resolvedor_degradado.2.1 regraSocio dbTeste "123456",
    c9_resolvedor_degradado.1 regraSocio dbTeste "999999" (by decide), h.1, ?_⟩
  rw [h.2.1]
  rfl

end CrudAtletica
